import Mathlib

/-!
# DepthFlow mobile renderer: verification of `native-lib.cpp`

A shallow embedding of `app/src/main/cpp/native-lib.cpp`.  The C++ globals become the
record `Engine`; every function of the source becomes a Lean function on that record,
with the Vulkan driver replaced by a small mock device that stores the objects the
calls create and logs every state-changing call, in order.

Conventions of the embedding:

* A `float` is its binary32 bit pattern (`F32`); the program only stores, copies and
  converts the parameters, so equality of bit patterns is exact equality of what is stored.
* Everything the outside world decides is an explicit argument: the asset provider, the
  image decoder, the answers of the driver (`InitEnv`), and for each frame the result of
  the image acquisition and the clock readings (`DrawEnv`).
* Driver calls whose result the source discards are taken to succeed.
* The byte layout of `struct UBO` is computed from its member list by the C++ layout rule,
  with `sizeof(float) = alignof(float) = 4` as on the Android ABIs.
* A wait on a fence that is unsignaled and that no pending submission will signal never
  returns (the source waits with timeout `UINT64_MAX`); an entry point that gets there ends
  in `Outcome.blocked`.
-/

namespace DepthFlow

/-! ## Memory-type selection -/

/-- The part of `VkPhysicalDeviceMemoryProperties` read by `findMemType`:
`memoryTypeCount` and the `propertyFlags` of each entry of `memoryTypes`. -/
structure VkPhysicalDeviceMemoryProperties where
  memoryTypeCount : Nat
  memoryTypes : List Nat
  deriving DecidableEq, Repr

/-- The array size `VK_MAX_MEMORY_TYPES` of `memoryTypes`. -/
def VK_MAX_MEMORY_TYPES : Nat := 32

/-- The C expression `memProps.memoryTypes[i].propertyFlags`. -/
def VkPhysicalDeviceMemoryProperties.propertyFlags
    (memProps : VkPhysicalDeviceMemoryProperties) (i : Nat) : Nat :=
  memProps.memoryTypes.getD i 0

/-- The loop condition of `findMemType` at index `i`:
`(typeFilter & (1<<i)) && (memProps.memoryTypes[i].propertyFlags & props) == props`,
the shift taken in 32 bits. -/
def findMemType.test (typeFilter props : Nat)
    (memProps : VkPhysicalDeviceMemoryProperties) (i : Nat) : Bool :=
  (typeFilter &&& ((1 <<< i) % 2 ^ 32) != 0) && (memProps.propertyFlags i &&& props == props)

/-- The `for` loop of `findMemType` with `remaining` iterations left, standing at index `i`;
falls through to `return 0`. -/
def findMemType.loop (typeFilter props : Nat) (memProps : VkPhysicalDeviceMemoryProperties) :
    Nat → Nat → Nat
  | 0, _ => 0
  | remaining + 1, i =>
    if findMemType.test typeFilter props memProps i then i
    else findMemType.loop typeFilter props memProps remaining (i + 1)

/-- The function `findMemType(typeFilter, props)`; `memProps` is what
`vkGetPhysicalDeviceMemoryProperties(physicalDevice, &memProps)` reports. -/
def findMemType (memProps : VkPhysicalDeviceMemoryProperties) (typeFilter props : Nat) : Nat :=
  findMemType.loop typeFilter props memProps memProps.memoryTypeCount 0

/-- Index `i` qualifies: it is below `memoryTypeCount`, its bit is set in the filter and its
property flags contain every requested flag. -/
def Qualifies (memProps : VkPhysicalDeviceMemoryProperties) (typeFilter props i : Nat) : Prop :=
  i < memProps.memoryTypeCount ∧ typeFilter.testBit i = true ∧
    memProps.propertyFlags i &&& props = props

instance (memProps : VkPhysicalDeviceMemoryProperties) (typeFilter props i : Nat) :
    Decidable (Qualifies memProps typeFilter props i) :=
  inferInstanceAs (Decidable (i < memProps.memoryTypeCount ∧ typeFilter.testBit i = true ∧
    memProps.propertyFlags i &&& props = props))

/-- A device with three memory types: device-local, host-visible and coherent, all three. -/
def sampleMemProps : VkPhysicalDeviceMemoryProperties :=
  { memoryTypeCount := 3, memoryTypes := [1, 6, 7] }

/-! ## Floats and the parameter buffer -/

/-- A C `float`, kept as its IEEE-754 binary32 bit pattern.  The program stores, copies and
converts floats but never does arithmetic on the parameters, so the bit pattern is the
whole of their behaviour (a NaN or a signed zero is copied unchanged). -/
structure F32 where
  bits : Nat
  deriving DecidableEq, Repr

/-- The literal `0` of `UBO ubo = {}`. -/
def F32.zero : F32 := ⟨0⟩
/-- The literal `0.05f`. -/
def F32.lit_0_05 : F32 := ⟨0x3D4CCCCD⟩
/-- The literal `0.5f`. -/
def F32.lit_0_5 : F32 := ⟨0x3F000000⟩
/-- The literal `1.0f`. -/
def F32.lit_1_0 : F32 := ⟨0x3F800000⟩
/-- The literal `0.01f`. -/
def F32.lit_0_01 : F32 := ⟨0x3C23D70A⟩
/-- The literal `100.0f`. -/
def F32.lit_100_0 : F32 := ⟨0x42C80000⟩
/-- The float `0.1f`. -/
def F32.lit_0_1 : F32 := ⟨0x3DCCCCCD⟩
/-- The float `-0.2f`. -/
def F32.lit_neg_0_2 : F32 := ⟨0xBE4CCCCD⟩
/-- The float `1.5f`. -/
def F32.lit_1_5 : F32 := ⟨0x3FC00000⟩
/-- The float `0.08f`. -/
def F32.lit_0_08 : F32 := ⟨0x3DA3D70A⟩

/-- The value `|f|` of a finite bit pattern as a rational (sign dropped): used only to
check the literals above against their decimal spelling. -/
def F32.magnitude (f : F32) : ℚ :=
  let e : Nat := (f.bits / 2 ^ 23) % 256
  let m : Nat := f.bits % 2 ^ 23
  if e = 0 then (m : ℚ) / 2 ^ 149
  else if e < 150 then ((2 ^ 23 + m : Nat) : ℚ) / 2 ^ (150 - e)
  else ((2 ^ 23 + m : Nat) : ℚ) * 2 ^ (e - 150)

/-- The sign bit of a bit pattern. -/
def F32.signBit (f : F32) : Bool := f.bits / 2 ^ 31 % 2 = 1

/-- Floor of the binary logarithm, by halving at most `fuel` times. -/
def floorLog2 : Nat → Nat → Nat
  | 0, _ => 0
  | fuel + 1, n => if n < 2 then 0 else floorLog2 fuel (n / 2) + 1

/-- The conversion `(float)n` of a non-negative 32-bit integer, rounding to nearest, ties to
even. -/
def F32.ofNat (n : Nat) : F32 :=
  if n = 0 then ⟨0⟩
  else
    let e := floorLog2 32 n
    if e ≤ 23 then ⟨(127 + e) * 2 ^ 23 + (n * 2 ^ (23 - e) - 2 ^ 23)⟩
    else
      let sh := e - 23
      let q := n / 2 ^ sh
      let r := n % 2 ^ sh
      let half := 2 ^ (sh - 1)
      let q1 := if half < r ∨ (r = half ∧ q % 2 = 1) then q + 1 else q
      ⟨(127 + e) * 2 ^ 23 + (q1 - 2 ^ 23)⟩

/-- The struct `vec2`. -/
structure vec2 where
  x : F32
  y : F32
  deriving DecidableEq, Repr

/-- The struct `UBO`, members in declaration order. -/
structure UBO where
  height : F32
  steady : F32
  focus : F32
  zoom : F32
  isometric : F32
  dolly : F32
  invert : F32
  mirror : F32
  offset : vec2
  center : vec2
  origin : vec2
  time : F32
  aspect : F32
  screenSize : vec2
  imgSize : vec2
  inpaint : F32
  quality : F32
  vig : F32
  sat : F32
  con : F32
  bri : F32
  gam : F32
  sep : F32
  gray : F32
  pad1 : F32
  pad2 : F32
  pad3 : F32
  deriving DecidableEq, Repr

/-- The value-initialised `UBO ubo = {}`: every float is zero. -/
def UBO.zero : UBO :=
  { height := F32.zero, steady := F32.zero, focus := F32.zero, zoom := F32.zero,
    isometric := F32.zero, dolly := F32.zero, invert := F32.zero, mirror := F32.zero,
    offset := ⟨F32.zero, F32.zero⟩, center := ⟨F32.zero, F32.zero⟩,
    origin := ⟨F32.zero, F32.zero⟩, time := F32.zero, aspect := F32.zero,
    screenSize := ⟨F32.zero, F32.zero⟩, imgSize := ⟨F32.zero, F32.zero⟩,
    inpaint := F32.zero, quality := F32.zero, vig := F32.zero, sat := F32.zero,
    con := F32.zero, bri := F32.zero, gam := F32.zero, sep := F32.zero,
    gray := F32.zero, pad1 := F32.zero, pad2 := F32.zero, pad3 := F32.zero }

/-- The 32 floats of a `UBO`, in declaration order. -/
def UBO.floats (u : UBO) : List F32 :=
  [u.height, u.steady, u.focus, u.zoom, u.isometric, u.dolly, u.invert, u.mirror,
   u.offset.x, u.offset.y, u.center.x, u.center.y, u.origin.x, u.origin.y, u.time, u.aspect,
   u.screenSize.x, u.screenSize.y, u.imgSize.x, u.imgSize.y,
   u.inpaint, u.quality, u.vig, u.sat, u.con, u.bri, u.gam, u.sep,
   u.gray, u.pad1, u.pad2, u.pad3]

/-- The 23 floats of a `UBO` other than `offset`, `zoom`, `height`, `time`, `screenSize` and
`imgSize`, in declaration order. -/
def UBO.untouchedByFrame (u : UBO) : List F32 :=
  [u.steady, u.focus, u.isometric, u.dolly, u.invert, u.mirror,
   u.center.x, u.center.y, u.origin.x, u.origin.y, u.aspect,
   u.inpaint, u.quality, u.vig, u.sat, u.con, u.bri, u.gam, u.sep,
   u.gray, u.pad1, u.pad2, u.pad3]

/-- The 27 floats of a `UBO` other than `height`, `steady`, `zoom`, `quality` and `inpaint`,
in declaration order. -/
def UBO.withoutDefaults (u : UBO) : List F32 :=
  [u.focus, u.isometric, u.dolly, u.invert, u.mirror,
   u.offset.x, u.offset.y, u.center.x, u.center.y, u.origin.x, u.origin.y, u.time, u.aspect,
   u.screenSize.x, u.screenSize.y, u.imgSize.x, u.imgSize.y,
   u.vig, u.sat, u.con, u.bri, u.gam, u.sep, u.gray, u.pad1, u.pad2, u.pad3]

/-- The 28 floats of a `UBO` other than `offset`, `zoom` and `height`, in declaration
order. -/
def UBO.withoutParams (u : UBO) : List F32 :=
  [u.steady, u.focus, u.isometric, u.dolly, u.invert, u.mirror,
   u.center.x, u.center.y, u.origin.x, u.origin.y, u.time, u.aspect,
   u.screenSize.x, u.screenSize.y, u.imgSize.x, u.imgSize.y,
   u.inpaint, u.quality, u.vig, u.sat, u.con, u.bri, u.gam, u.sep,
   u.gray, u.pad1, u.pad2, u.pad3]

/-- The value of `sizeof(UBO)`: 32 floats of four bytes. -/
def sizeof_UBO : Nat := 128

/-! ## Assets and the image decoder -/

/-- The asset provider behind `AAssetManager*`: the assets it holds, by name, each with its
bytes. -/
structure AAssetManager where
  assets : List (String × List Nat)
  deriving DecidableEq, Repr

/-- The call `AAssetManager_open(assetMgr, name, AASSET_MODE_BUFFER)` followed by
`AAsset_getLength` and `AAsset_read`: the bytes of the asset, `none` for the null `AAsset*`
of an asset the provider does not hold. -/
def AAssetManager_open (mgr : AAssetManager) (name : String) : Option (List Nat) :=
  mgr.assets.lookup name

/-- What `stbi_load_from_memory(..., &w, &h, &c, 4)` hands back on success: the dimensions
and the `w*h*4` bytes of RGBA pixels. -/
structure StbImage where
  w : Nat
  h : Nat
  pixels : List Nat
  deriving DecidableEq, Repr

/-! ## The mock Vulkan device -/

/-- The `VkExtent2D` struct. -/
structure VkExtent2D where
  width : Nat
  height : Nat
  deriving DecidableEq, Repr

/-- The `VkResult` codes `vkAcquireNextImageKHR` can return. -/
inductive VkResult where
  | VK_SUCCESS
  | VK_NOT_READY
  | VK_TIMEOUT
  | VK_SUBOPTIMAL_KHR
  | VK_ERROR_OUT_OF_DATE_KHR
  | VK_ERROR_SURFACE_LOST_KHR
  | VK_ERROR_DEVICE_LOST
  deriving DecidableEq, Repr

/-- The image layouts the program uses. -/
inductive VkImageLayout where
  | VK_IMAGE_LAYOUT_UNDEFINED
  | VK_IMAGE_LAYOUT_TRANSFER_DST_OPTIMAL
  | VK_IMAGE_LAYOUT_SHADER_READ_ONLY_OPTIMAL
  deriving DecidableEq, Repr

/-- The sampler filters the program uses. -/
inductive VkFilter where
  | VK_FILTER_NEAREST
  | VK_FILTER_LINEAR
  deriving DecidableEq, Repr

/-- The one image format the program uses. -/
inductive VkFormat where
  | VK_FORMAT_R8G8B8A8_UNORM
  deriving DecidableEq, Repr

/-- Memory property flag `VK_MEMORY_PROPERTY_DEVICE_LOCAL_BIT`. -/
def VK_MEMORY_PROPERTY_DEVICE_LOCAL_BIT : Nat := 1
/-- Memory property flag `VK_MEMORY_PROPERTY_HOST_VISIBLE_BIT`. -/
def VK_MEMORY_PROPERTY_HOST_VISIBLE_BIT : Nat := 2
/-- Memory property flag `VK_MEMORY_PROPERTY_HOST_COHERENT_BIT`. -/
def VK_MEMORY_PROPERTY_HOST_COHERENT_BIT : Nat := 4
/-- Buffer usage flag `VK_BUFFER_USAGE_TRANSFER_SRC_BIT`. -/
def VK_BUFFER_USAGE_TRANSFER_SRC_BIT : Nat := 1
/-- Buffer usage flag `VK_BUFFER_USAGE_UNIFORM_BUFFER_BIT`. -/
def VK_BUFFER_USAGE_UNIFORM_BUFFER_BIT : Nat := 16

/-- The object behind a `VkImage` handle: its extent, its current layout and the bytes
copied into it. -/
structure VkImageObj where
  width : Nat
  height : Nat
  format : VkFormat
  layout : VkImageLayout
  texels : List Nat
  deriving DecidableEq, Repr

/-- The struct `Tex`; a member is `none` while its handle is still null, and otherwise
holds the object the handle stands for (for `mem`, the memory type index of the
allocation). -/
structure Tex where
  img : Option VkImageObj
  mem : Option Nat
  view : Option VkFormat
  smp : Option VkFilter
  deriving DecidableEq, Repr

/-- A value-initialised `Tex`, as held by `std::vector<Tex> textures(5)`. -/
def Tex.null : Tex := { img := none, mem := none, view := none, smp := none }

/-- All four handles of the texture have been created. -/
def Tex.fullyConstructed (t : Tex) : Bool :=
  t.img.isSome && t.mem.isSome && t.view.isSome && t.smp.isSome

/-- A command recorded into a command buffer. -/
inductive VkCmd where
  | vkCmdPipelineBarrier (oldL newL : VkImageLayout)
  | vkCmdCopyBufferToImage (width height : Nat)
  | vkCmdBeginRenderPass (framebuffer : Nat)
  | vkCmdBindPipeline
  | vkCmdBindDescriptorSets
  | vkCmdDraw (vertexCount instanceCount firstVertex firstInstance : Nat)
  | vkCmdEndRenderPass
  deriving DecidableEq, Repr

/-- A state-changing call made on the device, with the arguments that matter here.
Pure queries (`vkGet...`, `vkEnumerate...`) are not logged; their answers come from
`Driver`. -/
inductive VkCall where
  | vkCreateInstance
  | vkCreateAndroidSurfaceKHR
  | vkCreateDevice
  | vkCreateSwapchainKHR (minImageCount : Nat) (extent : VkExtent2D)
  | vkCreateImageView
  | vkCreateRenderPass
  | vkCreateFramebuffer (index : Nat)
  | vkCreateDescriptorSetLayout
  | vkCreateShaderModule (codeSize : Nat)
  | vkCreatePipelineLayout
  | vkCreateGraphicsPipelines
  | vkCreateCommandPool
  | vkAllocateCommandBuffers
  | vkFreeCommandBuffers
  | vkCreateSemaphore
  | vkCreateFence (signaled : Bool)
  | vkCreateBuffer (size usage : Nat)
  | vkAllocateMemory (memoryTypeIndex : Nat)
  | vkBindBufferMemory
  | vkBindImageMemory
  | vkMapMemory
  | memcpyBytes (bytes : List Nat)
  | memcpyUBO (u : UBO)
  | vkUnmapMemory
  | vkDestroyBuffer
  | vkFreeMemory
  | vkCreateImage (width height : Nat)
  | vkCreateSampler (filter : VkFilter)
  | vkCreateDescriptorPool
  | vkAllocateDescriptorSets
  | vkUpdateDescriptorSets (writes : Nat)
  | vkResetCommandBuffer
  | vkBeginCommandBuffer
  | cmd (c : VkCmd)
  | vkEndCommandBuffer
  | vkQueueSubmit (signalsFence : Bool)
  | vkQueueWaitIdle
  | vkDeviceWaitIdle
  | vkWaitForFences
  | vkResetFences
  | vkAcquireNextImageKHR (result : VkResult) (imageIndex : Nat)
  | vkQueuePresentKHR (imageIndex : Nat)
  deriving DecidableEq, Repr

/-- The answers of the driver to the queries made during initialisation, for the first
enumerated physical device (`devs[0]`). -/
structure Driver where
  memProps : VkPhysicalDeviceMemoryProperties
  currentExtent : VkExtent2D
  minImageCount : Nat
  swapchainImageCount : Nat
  bufferMemoryTypeBits : Nat → Nat → Nat
  imageMemoryTypeBits : Nat → Nat → Nat

/-! ## The engine state -/

/-- The global variables of `native-lib.cpp` together with the state of the mock device.
Handles whose objects play no part below (instance, device, queue, pipeline, ...) are
represented only by the logged call that created them. -/
structure Engine where
  ubo : UBO
  isInit : Bool
  g_w : F32
  g_h : F32
  assetMgr : Option AAssetManager
  textures : List Tex
  scExtent : VkExtent2D
  scImages : Nat
  uboBuf : Option Nat
  uboMem : Option UBO
  cmdBuf : List VkCmd
  t0 : Option Int
  fenceSignaled : Bool
  fencePending : Bool
  calls : List VkCall
  deriving DecidableEq, Repr

/-- The state at program start: `ubo = {}`, `isInit = false`, `g_w = g_h = 100.0f`,
`assetMgr = nullptr`, five null textures, nothing created on the device. -/
def Engine.initial : Engine :=
  { ubo := UBO.zero, isInit := false, g_w := F32.lit_100_0, g_h := F32.lit_100_0,
    assetMgr := none, textures := List.replicate 5 Tex.null,
    scExtent := ⟨0, 0⟩, scImages := 0, uboBuf := none, uboMem := none, cmdBuf := [],
    t0 := none, fenceSignaled := false, fencePending := false, calls := [] }

/-- Append one call to the device log. -/
def Engine.log (s : Engine) (c : VkCall) : Engine :=
  { s with calls := s.calls ++ [c] }

/-- Append several calls to the device log. -/
def Engine.logAll (s : Engine) (cs : List VkCall) : Engine :=
  { s with calls := s.calls ++ cs }

/-- How a blocking entry point ends: it returns, or it never returns because it waits on a
fence that nothing will signal; `state` is the state reached. -/
inductive Outcome where
  | returned (state : Engine)
  | blocked (state : Engine)
  deriving DecidableEq, Repr

/-- The state reached by an outcome. -/
def Outcome.state : Outcome → Engine
  | .returned s => s
  | .blocked s => s

/-- The queue submission `vkQueueSubmit(graphicsQueue, 1, &si, fence)`;
`signalsFence` is false for `VK_NULL_HANDLE`.  The fence becomes pending: it is
signaled when the submitted work completes. -/
def vkQueueSubmit (signalsFence : Bool) (s : Engine) : Engine :=
  { s.log (.vkQueueSubmit signalsFence) with fencePending := s.fencePending || signalsFence }

/-- The call `vkQueueWaitIdle(graphicsQueue)`: returns once all submitted work has
completed, which signals a pending fence. -/
def vkQueueWaitIdle (s : Engine) : Engine :=
  { s.log .vkQueueWaitIdle with
    fenceSignaled := s.fenceSignaled || s.fencePending, fencePending := false }

/-- The call `vkWaitForFences(device, 1, &fence, VK_TRUE, UINT64_MAX)`: returns when the
fence is signaled, at once or when the pending submission completes; with the fence
unsignaled and no submission pending, it does not return. -/
def vkWaitForFences (s : Engine) : Outcome :=
  if s.fenceSignaled then .returned (s.log .vkWaitForFences)
  else if s.fencePending then
    .returned { s.log .vkWaitForFences with fenceSignaled := true, fencePending := false }
  else .blocked (s.log .vkWaitForFences)

/-- The call `vkResetFences(device, 1, &fence)`: the fence becomes unsignaled. -/
def vkResetFences (s : Engine) : Engine :=
  { s.log .vkResetFences with fenceSignaled := false }

/-- The call `vkDeviceWaitIdle(device)`: returns once all submitted work has completed. -/
def vkDeviceWaitIdle (s : Engine) : Engine :=
  { s.log .vkDeviceWaitIdle with
    fenceSignaled := s.fenceSignaled || s.fencePending, fencePending := false }

/-- The call `vkCreateFence` with `VK_FENCE_CREATE_SIGNALED_BIT` set or not: a fresh fence
in the given state replaces `fence`. -/
def vkCreateFence (signaled : Bool) (s : Engine) : Engine :=
  { s.log (.vkCreateFence signaled) with fenceSignaled := signaled, fencePending := false }

/-! ## The environment of the entry points -/

/-- What the outside world supplies to `initVulkan`: the result of `AAssetManager_fromJava`
(`none` for a null pointer), the driver, and the decoder `stbi_load_from_memory` (`none`
for its null result on data it cannot decode). -/
structure InitEnv where
  am : Option AAssetManager
  driver : Driver
  stbi_load_from_memory : List Nat → Option StbImage

/-- What the outside world supplies to one `drawFrame` call: the result and image index of
`vkAcquireNextImageKHR`, the two readings of `high_resolution_clock::now()` (the first is
used only when the static `t0` is initialised), and the conversion
`std::chrono::duration<float>(...).count()` of a clock difference to seconds. -/
structure DrawEnv where
  acquireResult : VkResult
  imageIndex : Nat
  clockFirst : Int
  clockNow : Int
  seconds : Int → F32

/-! ## Helper functions of the source -/

/-- The function `createBuf(size, usage, props, buf, mem)`; returns the memory type index of
the allocation bound to the buffer. -/
def createBuf (drv : Driver) (size usage props : Nat) (s : Engine) : Nat × Engine :=
  let s := s.log (.vkCreateBuffer size usage)
  let memoryTypeIndex :=
    findMemType drv.memProps (drv.bufferMemoryTypeBits size usage) props
  let s := s.log (.vkAllocateMemory memoryTypeIndex)
  (memoryTypeIndex, s.log .vkBindBufferMemory)

/-- The function `oneTimeCmd(func)`; `func` is given by the commands it records. -/
def oneTimeCmd (func : List VkCmd) (s : Engine) : Engine :=
  let s := s.log .vkAllocateCommandBuffers
  let s := s.log .vkBeginCommandBuffer
  let s := s.logAll (func.map .cmd)
  let s := s.log .vkEndCommandBuffer
  let s := vkQueueSubmit false s
  let s := vkQueueWaitIdle s
  s.log .vkFreeCommandBuffers

/-- The function `transLayout(img, oldL, newL)`: one barrier, executed at once; the image is
in layout `newL` afterwards. -/
def transLayout (img : VkImageObj) (oldL newL : VkImageLayout) (s : Engine) :
    VkImageObj × Engine :=
  ({ img with layout := newL }, oneTimeCmd [.vkCmdPipelineBarrier oldL newL] s)

/-- The function `createFallback(t, r, g, b)`. -/
def createFallback (drv : Driver) (t : Tex) (r g b : Nat) (s : Engine) : Tex × Engine :=
  let p := [r, g, b, 255]
  let sb := createBuf drv 4 VK_BUFFER_USAGE_TRANSFER_SRC_BIT
    (VK_MEMORY_PROPERTY_HOST_VISIBLE_BIT ||| VK_MEMORY_PROPERTY_HOST_COHERENT_BIT) s
  let s := sb.2.logAll [.vkMapMemory, .memcpyBytes (p.take 4), .vkUnmapMemory]
  let staging := p.take 4
  let img : VkImageObj :=
    { width := 1, height := 1, format := .VK_FORMAT_R8G8B8A8_UNORM,
      layout := .VK_IMAGE_LAYOUT_UNDEFINED, texels := [] }
  let s := s.log (.vkCreateImage 1 1)
  let memoryTypeIndex :=
    findMemType drv.memProps (drv.imageMemoryTypeBits 1 1) VK_MEMORY_PROPERTY_DEVICE_LOCAL_BIT
  let s := s.logAll [.vkAllocateMemory memoryTypeIndex, .vkBindImageMemory]
  let t := { t with img := some img, mem := some memoryTypeIndex }
  let tl := transLayout img .VK_IMAGE_LAYOUT_UNDEFINED .VK_IMAGE_LAYOUT_TRANSFER_DST_OPTIMAL s
  let s := oneTimeCmd [.vkCmdCopyBufferToImage 1 1] tl.2
  let img := { tl.1 with texels := staging.take (1 * 1 * 4) }
  let tl := transLayout img .VK_IMAGE_LAYOUT_TRANSFER_DST_OPTIMAL
    .VK_IMAGE_LAYOUT_SHADER_READ_ONLY_OPTIMAL s
  let s := tl.2.logAll [.vkDestroyBuffer, .vkFreeMemory]
  let t := { t with img := some tl.1 }
  let s := s.log .vkCreateImageView
  let t := { t with view := some .VK_FORMAT_R8G8B8A8_UNORM }
  let s := s.log (.vkCreateSampler .VK_FILTER_NEAREST)
  ({ t with smp := some .VK_FILTER_NEAREST }, s)

/-- The function `loadTex(name, t)`. -/
def loadTex (env : InitEnv) (name : String) (t : Tex) (s : Engine) : Tex × Engine :=
  match s.assetMgr with
  | none => createFallback env.driver t 255 0 255 s
  | some mgr =>
    match AAssetManager_open mgr name with
    | none => createFallback env.driver t 255 0 0 s
    | some buf =>
      match env.stbi_load_from_memory buf with
      | none => createFallback env.driver t 255 255 0 s
      | some p =>
        let s := if name = "image.png" then
          { s with g_w := F32.ofNat p.w, g_h := F32.ofNat p.h } else s
        let sz := p.w * p.h * 4
        let sb := createBuf env.driver sz VK_BUFFER_USAGE_TRANSFER_SRC_BIT
          (VK_MEMORY_PROPERTY_HOST_VISIBLE_BIT ||| VK_MEMORY_PROPERTY_HOST_COHERENT_BIT) s
        let s := sb.2.logAll [.vkMapMemory, .memcpyBytes (p.pixels.take sz), .vkUnmapMemory]
        let staging := p.pixels.take sz
        let img : VkImageObj :=
          { width := p.w, height := p.h, format := .VK_FORMAT_R8G8B8A8_UNORM,
            layout := .VK_IMAGE_LAYOUT_UNDEFINED, texels := [] }
        let s := s.log (.vkCreateImage p.w p.h)
        let memoryTypeIndex := findMemType env.driver.memProps
          (env.driver.imageMemoryTypeBits p.w p.h) VK_MEMORY_PROPERTY_DEVICE_LOCAL_BIT
        let s := s.logAll [.vkAllocateMemory memoryTypeIndex, .vkBindImageMemory]
        let t := { t with img := some img, mem := some memoryTypeIndex }
        let tl := transLayout img .VK_IMAGE_LAYOUT_UNDEFINED
          .VK_IMAGE_LAYOUT_TRANSFER_DST_OPTIMAL s
        let s := oneTimeCmd [.vkCmdCopyBufferToImage p.w p.h] tl.2
        let img := { tl.1 with texels := staging.take (p.w * p.h * 4) }
        let tl := transLayout img .VK_IMAGE_LAYOUT_TRANSFER_DST_OPTIMAL
          .VK_IMAGE_LAYOUT_SHADER_READ_ONLY_OPTIMAL s
        let s := tl.2.logAll [.vkDestroyBuffer, .vkFreeMemory]
        let t := { t with img := some tl.1 }
        let s := s.log .vkCreateImageView
        let t := { t with view := some .VK_FORMAT_R8G8B8A8_UNORM }
        let s := s.log (.vkCreateSampler .VK_FILTER_LINEAR)
        ({ t with smp := some .VK_FILTER_LINEAR }, s)

/-- The call `loadTex(name, textures[i])` as made by `initVK`. -/
def loadTexInto (env : InitEnv) (name : String) (i : Nat) (s : Engine) : Engine :=
  let r := loadTex env name (s.textures.getD i Tex.null) s
  { r.2 with textures := r.2.textures.set i r.1 }

/-- The lambda `readSpv` of `initVK`, with the value of the global `assetMgr` it reads: the
bytes of the asset, empty when the asset manager is null or the asset is not found. -/
def readSpv (assetMgr : Option AAssetManager) (name : String) : List Nat :=
  match assetMgr with
  | none => []
  | some mgr =>
    match AAssetManager_open mgr name with
    | none => []
    | some buf => buf

/-- The function `initVK(win)`. -/
def initVK (env : InitEnv) (s : Engine) : Bool × Engine :=
  let drv := env.driver
  let s := s.logAll [.vkCreateInstance, .vkCreateAndroidSurfaceKHR, .vkCreateDevice]
  let s := { s with scExtent := drv.currentExtent }
  let s := s.log (.vkCreateSwapchainKHR (drv.minImageCount + 1) drv.currentExtent)
  let c := drv.swapchainImageCount
  let s := { s with scImages := c }
  let s := s.logAll (List.replicate c .vkCreateImageView)
  let s := s.log .vkCreateRenderPass
  let s := s.logAll ((List.range c).map .vkCreateFramebuffer)
  let s := s.log .vkCreateDescriptorSetLayout
  let vc := readSpv s.assetMgr "shaders/quad.vert.spv"
  let fc := readSpv s.assetMgr "shaders/depthflow.frag.spv"
  if vc.isEmpty || fc.isEmpty then (false, s)
  else
    let s := s.logAll [.vkCreateShaderModule vc.length, .vkCreateShaderModule fc.length,
      .vkCreatePipelineLayout, .vkCreateGraphicsPipelines, .vkCreateCommandPool,
      .vkAllocateCommandBuffers]
    let s := { s with cmdBuf := [] }
    let s := s.logAll [.vkCreateSemaphore, .vkCreateSemaphore]
    let s := vkCreateFence true s
    let ub := createBuf drv sizeof_UBO VK_BUFFER_USAGE_UNIFORM_BUFFER_BIT
      (VK_MEMORY_PROPERTY_HOST_VISIBLE_BIT ||| VK_MEMORY_PROPERTY_HOST_COHERENT_BIT) s
    let s := { ub.2 with uboBuf := some ub.1, uboMem := none }
    let s := loadTexInto env "image.png" 0 s
    let s := loadTexInto env "depth.png" 1 s
    let s := loadTexInto env "image_bg.png" 2 s
    let s := loadTexInto env "depth_bg.png" 3 s
    let s := loadTexInto env "subject_mask.png" 4 s
    let s := s.logAll [.vkCreateDescriptorPool, .vkAllocateDescriptorSets,
      .vkUpdateDescriptorSets 6]
    (true, s)

/-! ## The entry points -/

/-- The entry point `initVulkan(am, s)`; returns `JNI_TRUE` or `JNI_FALSE`. -/
def Java_com_df_depthflow_1mobile_MainActivity_initVulkan (env : InitEnv) (s : Engine) :
    Bool × Engine :=
  if s.isInit then (true, s)
  else
    let s := { s with assetMgr := env.am }
    let r := initVK env s
    if r.1 then
      (true, { r.2 with
        isInit := true
        ubo := { r.2.ubo with
          height := F32.lit_0_05, steady := F32.lit_0_5, zoom := F32.lit_1_0,
          quality := F32.lit_0_5, inpaint := F32.lit_0_01 } })
    else (false, r.2)

/-- The entry point `setParams(x, y, z, h)`. -/
def Java_com_df_depthflow_1mobile_MainActivity_setParams (x y z h : F32) (s : Engine) :
    Engine :=
  { s with ubo := { s.ubo with offset := { x := x, y := y }, zoom := z, height := h } }

/-- The entry point `drawFrame()`. -/
def Java_com_df_depthflow_1mobile_MainActivity_drawFrame (env : DrawEnv) (s : Engine) :
    Outcome :=
  if !s.isInit then .returned s
  else
    match vkWaitForFences s with
    | .blocked s => .blocked s
    | .returned s =>
      let s := vkResetFences s
      let s := s.log (.vkAcquireNextImageKHR env.acquireResult env.imageIndex)
      if env.acquireResult ≠ .VK_SUCCESS then .returned s
      else
        let i := env.imageIndex
        let t0 := s.t0.getD env.clockFirst
        let s := { s with t0 := some t0 }
        let s := { s with ubo := { s.ubo with time := env.seconds (env.clockNow - t0) } }
        let s := { s with ubo := { s.ubo with
          screenSize := { x := F32.ofNat s.scExtent.width, y := F32.ofNat s.scExtent.height } } }
        let s := { s with ubo := { s.ubo with imgSize := { x := s.g_w, y := s.g_h } } }
        let s := s.logAll [.vkMapMemory, .memcpyUBO s.ubo, .vkUnmapMemory]
        let s := { s with uboMem := some s.ubo }
        let s := s.log .vkResetCommandBuffer
        let s := { s with cmdBuf := [] }
        let s := s.log .vkBeginCommandBuffer
        let recorded := [VkCmd.vkCmdBeginRenderPass i, .vkCmdBindPipeline,
          .vkCmdBindDescriptorSets, .vkCmdDraw 3 1 0 0, .vkCmdEndRenderPass]
        let s := { s.logAll (recorded.map .cmd) with cmdBuf := s.cmdBuf ++ recorded }
        let s := s.log .vkEndCommandBuffer
        let s := vkQueueSubmit true s
        let s := s.log (.vkQueuePresentKHR i)
        let s := vkQueueWaitIdle s
        .returned s

/-- The entry point `cleanup()`. -/
def Java_com_df_depthflow_1mobile_MainActivity_cleanup (s : Engine) : Engine :=
  if s.isInit then vkDeviceWaitIdle s else s

/-! ## Sequences of calls -/

/-- A run of `drawFrame` calls, one environment per call; the run stops at a call that
never returns. -/
def drawFrames : List DrawEnv → Engine → Outcome
  | [], s => .returned s
  | env :: envs, s =>
    match Java_com_df_depthflow_1mobile_MainActivity_drawFrame env s with
    | .returned s1 => drawFrames envs s1
    | .blocked s1 => .blocked s1

/-- The number of queue submissions not yet followed by a queue-idle (or device-idle) wait
at the end of the call log `cs`, given `n` such submissions before it. -/
def outstanding : Nat → List VkCall → Nat
  | n, [] => n
  | n, .vkQueueSubmit _ :: cs => outstanding (n + 1) cs
  | _, .vkQueueWaitIdle :: cs => outstanding 0 cs
  | _, .vkDeviceWaitIdle :: cs => outstanding 0 cs
  | n, _ :: cs => outstanding n cs

/-- The calls one full frame makes on the device, for acquired image `i` and uploaded
parameter buffer `u`. -/
def frameCalls (i : Nat) (u : UBO) : List VkCall :=
  [.vkWaitForFences, .vkResetFences, .vkAcquireNextImageKHR .VK_SUCCESS i,
   .vkMapMemory, .memcpyUBO u, .vkUnmapMemory,
   .vkResetCommandBuffer, .vkBeginCommandBuffer,
   .cmd (.vkCmdBeginRenderPass i), .cmd .vkCmdBindPipeline, .cmd .vkCmdBindDescriptorSets,
   .cmd (.vkCmdDraw 3 1 0 0), .cmd .vkCmdEndRenderPass, .vkEndCommandBuffer,
   .vkQueueSubmit true, .vkQueuePresentKHR i, .vkQueueWaitIdle]

/-- A call of one of the four entry points by the host. -/
inductive HostCall where
  | initVulkan (env : InitEnv)
  | setParams (x y z h : F32)
  | drawFrame (env : DrawEnv)
  | cleanup

/-- The call is a `setParams` call. -/
def HostCall.isSetParams : HostCall → Bool
  | .setParams _ _ _ _ => true
  | _ => false

/-- Make one host call. -/
def HostCall.run : HostCall → Engine → Outcome
  | .initVulkan env, s => .returned (Java_com_df_depthflow_1mobile_MainActivity_initVulkan env s).2
  | .setParams x y z h, s =>
    .returned (Java_com_df_depthflow_1mobile_MainActivity_setParams x y z h s)
  | .drawFrame env, s => Java_com_df_depthflow_1mobile_MainActivity_drawFrame env s
  | .cleanup, s => .returned (Java_com_df_depthflow_1mobile_MainActivity_cleanup s)

/-- A run of host calls; the run stops at a call that never returns. -/
def runCalls : List HostCall → Engine → Outcome
  | [], s => .returned s
  | c :: cs, s =>
    match c.run s with
    | .returned s1 => runCalls cs s1
    | .blocked s1 => .blocked s1

/-! ## Sample inputs -/

/-- A driver with the memory types of `sampleMemProps`, a 1080x1920 surface and three
swapchain images. -/
def sampleDriver : Driver :=
  { memProps := sampleMemProps, currentExtent := ⟨1080, 1920⟩, minImageCount := 2,
    swapchainImageCount := 3, bufferMemoryTypeBits := fun _ _ => 7,
    imageMemoryTypeBits := fun _ _ => 1 }

/-- An asset provider holding both shader binaries, `image.png` and a `depth_bg.png` that
does not decode; the other three textures are absent. -/
def sampleAssets : AAssetManager :=
  { assets := [("shaders/quad.vert.spv", [3, 2, 35, 7]),
               ("shaders/depthflow.frag.spv", [3, 2, 35, 7, 0, 0, 1, 0]),
               ("image.png", [137, 80, 78, 71]),
               ("depth_bg.png", [0])] }

/-- A decoder that decodes the bytes of the sample `image.png` to a 2x1 image and fails on
everything else. -/
def sampleDecoder (buf : List Nat) : Option StbImage :=
  if buf = [137, 80, 78, 71] then
    some { w := 2, h := 1, pixels := [10, 20, 30, 255, 40, 50, 60, 255] }
  else none

/-- The sample initialisation environment. -/
def sampleInitEnv : InitEnv :=
  { am := some sampleAssets, driver := sampleDriver, stbi_load_from_memory := sampleDecoder }

/-- The sample environment with the fragment shader missing. -/
def sampleInitEnvNoShader : InitEnv :=
  { am := some { assets := [("shaders/quad.vert.spv", [3, 2, 35, 7])] },
    driver := sampleDriver, stbi_load_from_memory := sampleDecoder }

/-- The engine after a successful `initVulkan` from program start. -/
def readyEngine : Engine :=
  (Java_com_df_depthflow_1mobile_MainActivity_initVulkan sampleInitEnv Engine.initial).2

/-- A frame environment whose image acquisition succeeds with image 1. -/
def sampleDrawEnv : DrawEnv :=
  { acquireResult := .VK_SUCCESS, imageIndex := 1, clockFirst := 1000, clockNow := 1005,
    seconds := fun d => ⟨d.toNat⟩ }

/-- A frame environment whose image acquisition fails with `VK_ERROR_OUT_OF_DATE_KHR`. -/
def failingDrawEnv : DrawEnv :=
  { acquireResult := .VK_ERROR_OUT_OF_DATE_KHR, imageIndex := 0, clockFirst := 1000,
    clockNow := 1005, seconds := fun d => ⟨d.toNat⟩ }

/-! ## The memory layout of the parameter buffer -/

/-- The type of a data member of `vec2` or `UBO`. -/
inductive MemberType where
  | float
  | vec2
  deriving DecidableEq, Repr

/-- The value of `sizeof(float)` on the Android ABIs. -/
def sizeof_float : Nat := 4
/-- The value of `alignof(float)` on the Android ABIs. -/
def alignof_float : Nat := 4

/-- Round `offset` up to the next multiple of `align`. -/
def alignUp (offset align : Nat) : Nat :=
  (offset + align - 1) / align * align

/-- The C++ layout of the data members of a struct, given by size and alignment in
declaration order: each member goes to the first offset at or after the end of the one
before it that is a multiple of its alignment.  The padding in front of a member is the
gap between that end and its offset. -/
def memberOffsets : Nat → List (Nat × Nat) → List Nat
  | _, [] => []
  | dsize, (size, align) :: ms =>
    alignUp dsize align :: memberOffsets (alignUp dsize align + size) ms

/-- The offset just past the last data member. -/
def dataSize : Nat → List (Nat × Nat) → Nat
  | dsize, [] => dsize
  | dsize, (size, align) :: ms => dataSize (alignUp dsize align + size) ms

/-- The alignment of a struct: the greatest alignment of its members. -/
def structAlign (ms : List (Nat × Nat)) : Nat :=
  ms.foldl (fun a m => max a m.2) 1

/-- The size of a struct: the end of its last member, rounded up to its alignment. -/
def structSize (ms : List (Nat × Nat)) : Nat :=
  alignUp (dataSize 0 ms) (structAlign ms)

/-- The declaration `struct vec2 { float x, y; }`: size and alignment of its members. -/
def vec2.members : List (Nat × Nat) :=
  [(sizeof_float, alignof_float), (sizeof_float, alignof_float)]

/-- The value of `sizeof(vec2)`. -/
def sizeof_vec2 : Nat := structSize vec2.members
/-- The value of `alignof(vec2)`. -/
def alignof_vec2 : Nat := structAlign vec2.members

/-- The size of a member type in C++. -/
def MemberType.sizeof : MemberType → Nat
  | .float => sizeof_float
  | .vec2 => sizeof_vec2

/-- The alignment of a member type in C++. -/
def MemberType.alignof : MemberType → Nat
  | .float => alignof_float
  | .vec2 => alignof_vec2

/-- The base alignment of a member type under the std140 rules of the shader stage: 4 for
a scalar float, 8 for a two-component vector. -/
def MemberType.std140Align : MemberType → Nat
  | .float => 4
  | .vec2 => 8

/-- The size a member type takes under the std140 rules: 4 for a scalar float, 8 for a
two-component vector. -/
def MemberType.std140Size : MemberType → Nat
  | .float => 4
  | .vec2 => 8

/-- The data members of `struct UBO`, in declaration order. -/
def UBO.members : List (String × MemberType) :=
  [("height", .float), ("steady", .float), ("focus", .float), ("zoom", .float),
   ("isometric", .float), ("dolly", .float), ("invert", .float), ("mirror", .float),
   ("offset", .vec2), ("center", .vec2),
   ("origin", .vec2), ("time", .float), ("aspect", .float),
   ("screenSize", .vec2), ("imgSize", .vec2),
   ("inpaint", .float), ("quality", .float), ("vig", .float), ("sat", .float),
   ("con", .float), ("bri", .float), ("gam", .float), ("sep", .float),
   ("gray", .float), ("pad1", .float), ("pad2", .float), ("pad3", .float)]

/-- The members of `UBO` with the byte offsets the C++ layout gives them. -/
def UBO.layout : List (String × MemberType × Nat) :=
  List.zipWith (fun m off => (m.1, m.2, off)) UBO.members
    (memberOffsets 0 (UBO.members.map fun m => (m.2.sizeof, m.2.alignof)))

/-- The members of `UBO` with the byte offsets the std140 rules give a block that declares
the same members in the same order. -/
def UBO.std140Layout : List (String × MemberType × Nat) :=
  List.zipWith (fun m off => (m.1, m.2, off)) UBO.members
    (memberOffsets 0 (UBO.members.map fun m => (m.2.std140Size, m.2.std140Align)))

/-- The value of `sizeof(UBO)` as the C++ layout computes it. -/
def UBO.sizeof : Nat :=
  structSize (UBO.members.map fun m => (m.2.sizeof, m.2.alignof))

/-- The floats a member of `UBO` holds, by member name: one for a scalar, `x` then `y` for
a `vec2`. -/
def UBO.member (u : UBO) (name : String) : List F32 :=
  if name = "height" then [u.height]
  else if name = "steady" then [u.steady]
  else if name = "focus" then [u.focus]
  else if name = "zoom" then [u.zoom]
  else if name = "isometric" then [u.isometric]
  else if name = "dolly" then [u.dolly]
  else if name = "invert" then [u.invert]
  else if name = "mirror" then [u.mirror]
  else if name = "offset" then [u.offset.x, u.offset.y]
  else if name = "center" then [u.center.x, u.center.y]
  else if name = "origin" then [u.origin.x, u.origin.y]
  else if name = "time" then [u.time]
  else if name = "aspect" then [u.aspect]
  else if name = "screenSize" then [u.screenSize.x, u.screenSize.y]
  else if name = "imgSize" then [u.imgSize.x, u.imgSize.y]
  else if name = "inpaint" then [u.inpaint]
  else if name = "quality" then [u.quality]
  else if name = "vig" then [u.vig]
  else if name = "sat" then [u.sat]
  else if name = "con" then [u.con]
  else if name = "bri" then [u.bri]
  else if name = "gam" then [u.gam]
  else if name = "sep" then [u.sep]
  else if name = "gray" then [u.gray]
  else if name = "pad1" then [u.pad1]
  else if name = "pad2" then [u.pad2]
  else if name = "pad3" then [u.pad3]
  else []

/-- The floats of one member placed in memory from byte offset `off` on, each with its
byte offset; within a `vec2` the floats follow the layout of `vec2.members`. -/
def placeFloats (off : Nat) (fs : List F32) : List (Nat × F32) :=
  List.zip ((memberOffsets 0 (fs.map fun _ => (sizeof_float, alignof_float))).map (off + ·)) fs

/-- The memory image of a `UBO` as `memcpy(d, &ubo, sizeof(UBO))` reads it: every float slot
with its byte offset, in address order. -/
def UBO.memoryImage (u : UBO) : List (Nat × F32) :=
  UBO.layout.flatMap fun m => placeFloats m.2.2 (u.member m.1)

/-! ## Notions used in the statements -/

/-- The shader binary `name` cannot be obtained from the asset provider `am`: the asset
manager is absent, or the asset is not found, or its content has length zero. -/
def shaderUnavailable (am : Option AAssetManager) (name : String) : Prop :=
  match am with
  | none => True
  | some mgr =>
    AAssetManager_open mgr name = none ∨ AAssetManager_open mgr name = some []

instance (am : Option AAssetManager) (name : String) :
    Decidable (shaderUnavailable am name) :=
  match am with
  | none => isTrue trivial
  | some mgr =>
    inferInstanceAs (Decidable
      (AAssetManager_open mgr name = none ∨ AAssetManager_open mgr name = some []))

/-- The greatest number of queue submissions not yet followed by a queue-idle wait that is
reached anywhere along the call log `cs`, given `n` such submissions before it. -/
def peakOutstanding : Nat → List VkCall → Nat
  | n, [] => n
  | n, c :: cs => max n (peakOutstanding (outstanding n [c]) cs)

/-- The asset names of the five texture slots, in the order `initVK` loads them. -/
def slotNames : List String :=
  ["image.png", "depth.png", "image_bg.png", "depth_bg.png", "subject_mask.png"]

/-- The bytes held by the image of a texture: for a 1x1 texture, the RGBA colour of its
single pixel. -/
def Tex.color (t : Tex) : Option (List Nat) :=
  t.img.map (fun i => i.texels)

/-- The texture `createFallback` builds on driver `drv` for the colour `(r, g, b)`: a 1x1
image in shader-read layout holding the bytes `r, g, b, 255`, bound to device-local
memory, with a view and a nearest-filter sampler. -/
def fallbackTex (drv : Driver) (r g b : Nat) : Tex :=
  { img := some { width := 1, height := 1, format := .VK_FORMAT_R8G8B8A8_UNORM,
                  layout := .VK_IMAGE_LAYOUT_SHADER_READ_ONLY_OPTIMAL,
                  texels := [r, g, b, 255] },
    mem := some (findMemType drv.memProps (drv.imageMemoryTypeBits 1 1)
      VK_MEMORY_PROPERTY_DEVICE_LOCAL_BIT),
    view := some .VK_FORMAT_R8G8B8A8_UNORM,
    smp := some .VK_FILTER_NEAREST }

/-- The device calls `createFallback` makes on driver `drv` for the colour `(r, g, b)`, in
order: the staging buffer and the upload of the four bytes into it, the image and its
memory, the transition to transfer-destination layout, the copy of the staging buffer into
the image, the transition to shader-read layout, the release of the staging buffer, the
view and the sampler. -/
def fallbackCalls (drv : Driver) (r g b : Nat) : List VkCall :=
  [.vkCreateBuffer 4 VK_BUFFER_USAGE_TRANSFER_SRC_BIT,
   .vkAllocateMemory (findMemType drv.memProps
     (drv.bufferMemoryTypeBits 4 VK_BUFFER_USAGE_TRANSFER_SRC_BIT)
     (VK_MEMORY_PROPERTY_HOST_VISIBLE_BIT ||| VK_MEMORY_PROPERTY_HOST_COHERENT_BIT)),
   .vkBindBufferMemory,
   .vkMapMemory, .memcpyBytes [r, g, b, 255], .vkUnmapMemory,
   .vkCreateImage 1 1,
   .vkAllocateMemory (findMemType drv.memProps (drv.imageMemoryTypeBits 1 1)
     VK_MEMORY_PROPERTY_DEVICE_LOCAL_BIT),
   .vkBindImageMemory,
   .vkAllocateCommandBuffers, .vkBeginCommandBuffer,
   .cmd (.vkCmdPipelineBarrier .VK_IMAGE_LAYOUT_UNDEFINED
     .VK_IMAGE_LAYOUT_TRANSFER_DST_OPTIMAL),
   .vkEndCommandBuffer, .vkQueueSubmit false, .vkQueueWaitIdle, .vkFreeCommandBuffers,
   .vkAllocateCommandBuffers, .vkBeginCommandBuffer,
   .cmd (.vkCmdCopyBufferToImage 1 1),
   .vkEndCommandBuffer, .vkQueueSubmit false, .vkQueueWaitIdle, .vkFreeCommandBuffers,
   .vkAllocateCommandBuffers, .vkBeginCommandBuffer,
   .cmd (.vkCmdPipelineBarrier .VK_IMAGE_LAYOUT_TRANSFER_DST_OPTIMAL
     .VK_IMAGE_LAYOUT_SHADER_READ_ONLY_OPTIMAL),
   .vkEndCommandBuffer, .vkQueueSubmit false, .vkQueueWaitIdle, .vkFreeCommandBuffers,
   .vkDestroyBuffer, .vkFreeMemory,
   .vkCreateImageView, .vkCreateSampler .VK_FILTER_NEAREST]

/-- The state in which `initVK` calls `loadTex` in the sample environment, as far as
`loadTex` reads it: program start with `assetMgr` set to the sample assets. -/
def sampleLoadState : Engine :=
  { Engine.initial with assetMgr := some sampleAssets }

/-- The engine at program start after `setParams(0.1, -0.2, 1.5, 0.08)`. -/
def preInitParamsEngine : Engine :=
  Java_com_df_depthflow_1mobile_MainActivity_setParams F32.lit_0_1 F32.lit_neg_0_2
    F32.lit_1_5 F32.lit_0_08 Engine.initial

/-! ## Theorems -/

/-! ### The float literals -/

theorem F32.literals_exact :
    F32.zero.magnitude = 0 ∧ F32.lit_0_5.magnitude = 1 / 2 ∧ F32.lit_1_0.magnitude = 1 ∧
    F32.lit_1_5.magnitude = 3 / 2 ∧ F32.lit_100_0.magnitude = 100 ∧
    F32.lit_100_0 = F32.ofNat 100 := by
  refine ⟨?_, ?_, ?_, ?_, ?_, by decide⟩ <;>
    norm_num [F32.magnitude, F32.zero, F32.lit_0_5, F32.lit_1_0, F32.lit_1_5, F32.lit_100_0]

theorem F32.literals_nearest :
    |F32.lit_0_05.magnitude - 5 / 100| ≤ 1 / 2 ^ 29 ∧
    |F32.lit_0_01.magnitude - 1 / 100| ≤ 1 / 2 ^ 31 ∧
    |F32.lit_0_1.magnitude - 1 / 10| ≤ 1 / 2 ^ 28 ∧
    |F32.lit_neg_0_2.magnitude - 2 / 10| ≤ 1 / 2 ^ 27 ∧ F32.lit_neg_0_2.signBit = true ∧
    |F32.lit_0_08.magnitude - 8 / 100| ≤ 1 / 2 ^ 28 := by
  refine ⟨?_, ?_, ?_, ?_, by decide, ?_⟩ <;>
    norm_num [F32.magnitude, F32.lit_0_05, F32.lit_0_01, F32.lit_0_1, F32.lit_neg_0_2,
      F32.lit_0_08, abs_le]


theorem findMemType.test_iff (typeFilter props : Nat)
    (memProps : VkPhysicalDeviceMemoryProperties) (i : Nat) (hi : i < 32) :
    findMemType.test typeFilter props memProps i = true ↔
      typeFilter.testBit i = true ∧ memProps.propertyFlags i &&& props = props := by
  have hpow : (1 <<< i) % 2 ^ 32 = 2 ^ i := by
    rw [Nat.shiftLeft_eq, Nat.one_mul]
    exact Nat.mod_eq_of_lt (Nat.pow_lt_pow_right (by decide) hi)
  have hbit : typeFilter &&& 2 ^ i ≠ 0 ↔ typeFilter.testBit i = true := by
    constructor
    · intro h
      by_contra hb
      apply h
      apply Nat.eq_of_testBit_eq
      intro j
      rw [Nat.testBit_and, Nat.testBit_two_pow, Nat.zero_testBit]
      by_cases hj : i = j
      · subst hj; simp [hb]
      · simp [hj]
    · intro h h0
      have := congrArg (fun n => n.testBit i) h0
      simp [Nat.testBit_and, Nat.testBit_two_pow_self, h] at this
  unfold findMemType.test
  rw [hpow]
  simp only [Bool.and_eq_true, bne_iff_ne, beq_iff_eq]
  rw [hbit]

theorem findMemType.loop_spec (typeFilter props : Nat)
    (memProps : VkPhysicalDeviceMemoryProperties) (remaining i : Nat)
    (hcount : i + remaining = memProps.memoryTypeCount)
    (hmax : memProps.memoryTypeCount ≤ 32) :
    let r := findMemType.loop typeFilter props memProps remaining i
    (Qualifies memProps typeFilter props r ∧ i ≤ r ∧
        ∀ j, i ≤ j → j < r → ¬ Qualifies memProps typeFilter props j) ∨
      (r = 0 ∧ ∀ j, i ≤ j → ¬ Qualifies memProps typeFilter props j) := by
  induction remaining generalizing i with
  | zero =>
    right
    refine ⟨rfl, ?_⟩
    intro j hj hq
    have := hq.1
    omega
  | succ n ih =>
    simp only [findMemType.loop]
    by_cases ht : findMemType.test typeFilter props memProps i = true
    · left
      rw [if_pos ht]
      have hi : i < 32 := by omega
      have h := (findMemType.test_iff typeFilter props memProps i hi).1 ht
      refine ⟨⟨by omega, h.1, h.2⟩, le_refl _, ?_⟩
      intro j h1 h2
      omega
    · rw [if_neg ht]
      have hi : i < 32 := by omega
      have hnot : ¬ Qualifies memProps typeFilter props i := by
        intro hq
        exact ht ((findMemType.test_iff typeFilter props memProps i hi).2 ⟨hq.2.1, hq.2.2⟩)
      rcases ih (i + 1) (by omega) with ⟨hq, hle, hfirst⟩ | ⟨h0, hnone⟩
      · left
        refine ⟨hq, by omega, ?_⟩
        intro j h1 h2
        by_cases hji : j = i
        · subst hji; exact hnot
        · exact hfirst j (by omega) h2
      · right
        refine ⟨h0, ?_⟩
        intro j h1
        by_cases hji : j = i
        · subst hji; exact hnot
        · exact hnone j (by omega)

/-- C1: for every 32-bit type filter, every requested flag set and every memory-type table
of at most `VK_MAX_MEMORY_TYPES` entries, `findMemType` returns a qualifying index (below
`memoryTypeCount`, bit set in the filter, flags a superset of the requested ones; in fact
the first such index), or the fallback index 0 when no index qualifies. -/
theorem findMemType_qualifies_or_fallback
    (memProps : VkPhysicalDeviceMemoryProperties) (typeFilter props : Nat)
    (hmax : memProps.memoryTypeCount ≤ VK_MAX_MEMORY_TYPES) :
    (Qualifies memProps typeFilter props (findMemType memProps typeFilter props) ∧
        ∀ j, j < findMemType memProps typeFilter props →
          ¬ Qualifies memProps typeFilter props j) ∨
      (findMemType memProps typeFilter props = 0 ∧
        ∀ j, ¬ Qualifies memProps typeFilter props j) := by
  have h := findMemType.loop_spec typeFilter props memProps memProps.memoryTypeCount 0
    (by omega) hmax
  rcases h with ⟨hq, _, hfirst⟩ | ⟨h0, hnone⟩
  · left
    exact ⟨hq, fun j hj => hfirst j (Nat.zero_le _) hj⟩
  · right
    exact ⟨h0, fun j => hnone j (Nat.zero_le _)⟩

/-- Witness for C1 on `sampleMemProps`: filter `0b110` and flags `0b110` select index 1. -/
theorem findMemType_qualifies_or_fallback_witness :
    sampleMemProps.memoryTypeCount ≤ VK_MAX_MEMORY_TYPES ∧
    findMemType sampleMemProps 6 6 = 1 ∧
    ((Qualifies sampleMemProps 6 6 (findMemType sampleMemProps 6 6) ∧
        ∀ j, j < findMemType sampleMemProps 6 6 → ¬ Qualifies sampleMemProps 6 6 j) ∨
      (findMemType sampleMemProps 6 6 = 0 ∧ ∀ j, ¬ Qualifies sampleMemProps 6 6 j)) :=
  ⟨by decide, by decide, findMemType_qualifies_or_fallback sampleMemProps 6 6 (by decide)⟩

/-! ### Frame rendering: the failed acquisition -/

theorem drawFrame_acquire_failed (env : DrawEnv) (s : Engine)
    (hinit : s.isInit = true) (hfence : s.fenceSignaled = true)
    (hacq : env.acquireResult ≠ .VK_SUCCESS) :
    Java_com_df_depthflow_1mobile_MainActivity_drawFrame env s =
      .returned { s with
        fenceSignaled := false
        calls := s.calls ++ [.vkWaitForFences, .vkResetFences,
          .vkAcquireNextImageKHR env.acquireResult env.imageIndex] } := by
  simp [Java_com_df_depthflow_1mobile_MainActivity_drawFrame, vkWaitForFences, vkResetFences,
    Engine.log, hinit, hfence, hacq]

theorem drawFrame_blocks (env : DrawEnv) (s : Engine)
    (hinit : s.isInit = true) (hfence : s.fenceSignaled = false)
    (hpending : s.fencePending = false) :
    Java_com_df_depthflow_1mobile_MainActivity_drawFrame env s =
      .blocked (s.log .vkWaitForFences) := by
  simp [Java_com_df_depthflow_1mobile_MainActivity_drawFrame, vkWaitForFences, hinit, hfence,
    hpending]

theorem drawFrame_acquire_failed_then_blocks (env next : DrawEnv) (s : Engine)
    (hinit : s.isInit = true) (hfence : s.fenceSignaled = true)
    (hpend : s.fencePending = false) (hacq : env.acquireResult ≠ .VK_SUCCESS) :
    ∃ s1, Java_com_df_depthflow_1mobile_MainActivity_drawFrame env s = .returned s1 ∧
      s1.ubo = s.ubo ∧ s1.cmdBuf = s.cmdBuf ∧
      s1.calls = s.calls ++ [.vkWaitForFences, .vkResetFences,
        .vkAcquireNextImageKHR env.acquireResult env.imageIndex] ∧
      s1.fenceSignaled = false ∧ s1.fencePending = false ∧ s1 ≠ s ∧
      Java_com_df_depthflow_1mobile_MainActivity_drawFrame next s1 =
        .blocked (s1.log .vkWaitForFences) := by
  refine ⟨_, drawFrame_acquire_failed env s hinit hfence hacq, rfl, rfl, rfl, rfl, hpend,
    ?_, ?_⟩
  · intro h
    have h2 := congrArg Engine.fenceSignaled h
    simp [hfence] at h2
  · exact drawFrame_blocks next _ hinit rfl hpend

/-- C2 (the code at the failing input): on the freshly initialised engine, whose fence is
signaled, a `drawFrame` whose acquisition fails returns with the parameter buffer and the
command buffer untouched and nothing presented, but with the fence reset and no submission
pending; the next `drawFrame`, even one whose acquisition would succeed, issues its fence
wait and never returns. -/
theorem drawFrame_failed_acquire_resets_fence :
    readyEngine.isInit = true ∧ readyEngine.fenceSignaled = true ∧
    failingDrawEnv.acquireResult = .VK_ERROR_OUT_OF_DATE_KHR ∧
    ∃ s1, Java_com_df_depthflow_1mobile_MainActivity_drawFrame failingDrawEnv readyEngine =
        .returned s1 ∧
      s1.ubo = readyEngine.ubo ∧ s1.cmdBuf = readyEngine.cmdBuf ∧
      s1.calls = readyEngine.calls ++ [.vkWaitForFences, .vkResetFences,
        .vkAcquireNextImageKHR failingDrawEnv.acquireResult failingDrawEnv.imageIndex] ∧
      s1.fenceSignaled = false ∧ s1.fencePending = false ∧ s1 ≠ readyEngine ∧
      Java_com_df_depthflow_1mobile_MainActivity_drawFrame sampleDrawEnv s1 =
        .blocked (s1.log .vkWaitForFences) :=
  ⟨by decide, by decide, rfl,
    drawFrame_acquire_failed_then_blocks failingDrawEnv sampleDrawEnv readyEngine
      (by decide) (by decide) (by decide) (by decide)⟩

/-! ### Frame rendering: the full frame -/

theorem drawFrame_full_frame (env : DrawEnv) (s : Engine)
    (hinit : s.isInit = true) (hfence : s.fenceSignaled = true ∨ s.fencePending = true)
    (hacq : env.acquireResult = .VK_SUCCESS) :
    ∃ u : UBO,
      Java_com_df_depthflow_1mobile_MainActivity_drawFrame env s =
        .returned { s with
          ubo := u
          uboMem := some u
          cmdBuf := [.vkCmdBeginRenderPass env.imageIndex, .vkCmdBindPipeline,
            .vkCmdBindDescriptorSets, .vkCmdDraw 3 1 0 0, .vkCmdEndRenderPass]
          t0 := some (s.t0.getD env.clockFirst)
          fenceSignaled := true
          fencePending := false
          calls := s.calls ++ frameCalls env.imageIndex u } ∧
      u.offset = s.ubo.offset ∧ u.zoom = s.ubo.zoom ∧ u.height = s.ubo.height ∧
      u.untouchedByFrame = s.ubo.untouchedByFrame ∧
      u.time = env.seconds (env.clockNow - s.t0.getD env.clockFirst) ∧
      u.screenSize = ⟨F32.ofNat s.scExtent.width, F32.ofNat s.scExtent.height⟩ ∧
      u.imgSize = ⟨s.g_w, s.g_h⟩ := by
  refine ⟨{ s.ubo with
    time := env.seconds (env.clockNow - s.t0.getD env.clockFirst)
    screenSize := ⟨F32.ofNat s.scExtent.width, F32.ofNat s.scExtent.height⟩
    imgSize := ⟨s.g_w, s.g_h⟩ }, ?_, rfl, rfl, rfl, rfl, rfl, rfl, rfl⟩
  cases hs : s.fenceSignaled with
  | true =>
    simp [Java_com_df_depthflow_1mobile_MainActivity_drawFrame, vkWaitForFences,
      vkResetFences, vkQueueSubmit, vkQueueWaitIdle, Engine.log, Engine.logAll, frameCalls,
      hinit, hs, hacq]
  | false =>
    have hp : s.fencePending = true := by
      rcases hfence with h | h
      · rw [hs] at h; cases h
      · exact h
    simp [Java_com_df_depthflow_1mobile_MainActivity_drawFrame, vkWaitForFences,
      vkResetFences, vkQueueSubmit, vkQueueWaitIdle, Engine.log, Engine.logAll, frameCalls,
      hinit, hs, hp, hacq]

/-! ### Setting parameters -/

/-- C3 (counterexample): on the uninitialised engine at program start,
`setParams(0.1, -0.2, 1.5, 0.08)` changes the parameter buffer. -/
theorem setParams_changes_uninitialized_engine :
    Engine.initial.isInit = false ∧
    Java_com_df_depthflow_1mobile_MainActivity_setParams F32.lit_0_1 F32.lit_neg_0_2
      F32.lit_1_5 F32.lit_0_08 Engine.initial ≠ Engine.initial ∧
    (Java_com_df_depthflow_1mobile_MainActivity_setParams F32.lit_0_1 F32.lit_neg_0_2
      F32.lit_1_5 F32.lit_0_08 Engine.initial).ubo.offset.x = F32.lit_0_1 ∧
    Engine.initial.ubo.offset.x = F32.zero := by
  decide

/-- C3 (amended): for every engine state, initialised or not, and all float arguments,
`setParams` overwrites `offset.x`, `offset.y`, `zoom` and `height` with its arguments and
leaves the other 28 floats of the parameter buffer and every other piece of engine state
(`isInit` included) unchanged. -/
theorem setParams_overwrites_four_fields (x y z h : F32) (s : Engine) :
    let s1 := Java_com_df_depthflow_1mobile_MainActivity_setParams x y z h s
    s1.ubo.offset.x = x ∧ s1.ubo.offset.y = y ∧ s1.ubo.zoom = z ∧ s1.ubo.height = h ∧
    s1.ubo.withoutParams = s.ubo.withoutParams ∧ { s1 with ubo := s.ubo } = s := by
  refine ⟨rfl, rfl, rfl, rfl, rfl, rfl⟩

/-- C4: on every initialised engine, `setParams(x, y, z, h)` followed by a `drawFrame`
whose fence wait returns and whose image acquisition succeeds makes that very call upload
(one `memcpy` into the mapped uniform memory) a parameter buffer with `offset.x = x`,
`offset.y = y`, `zoom = z`, `height = h` exactly, and with the 23 floats other than these
four, `time`, `screenSize` and `imgSize` as they were before the two calls. -/
theorem setParams_then_drawFrame_uploads (x y z h : F32) (env : DrawEnv) (s : Engine)
    (hinit : s.isInit = true) (hfence : s.fenceSignaled = true ∨ s.fencePending = true)
    (hacq : env.acquireResult = .VK_SUCCESS) :
    ∃ s1 u,
      Java_com_df_depthflow_1mobile_MainActivity_drawFrame env
        (Java_com_df_depthflow_1mobile_MainActivity_setParams x y z h s) = .returned s1 ∧
      s1.uboMem = some u ∧ s1.calls = s.calls ++ frameCalls env.imageIndex u ∧
      u.offset.x = x ∧ u.offset.y = y ∧ u.zoom = z ∧ u.height = h ∧
      u.untouchedByFrame = s.ubo.untouchedByFrame := by
  obtain ⟨u, hrun, hoff, hzoom, hheight, hrest, -, -, -⟩ :=
    drawFrame_full_frame env (Java_com_df_depthflow_1mobile_MainActivity_setParams x y z h s)
      hinit hfence hacq
  refine ⟨_, u, hrun, rfl, rfl, ?_, ?_, ?_, ?_, ?_⟩
  · rw [hoff]; rfl
  · rw [hoff]; rfl
  · rw [hzoom]; rfl
  · rw [hheight]; rfl
  · rw [hrest]; rfl

/-- Witness for C4: `setParams(0.1, -0.2, 1.5, 0.08)` then `drawFrame` on the freshly
initialised sample engine. -/
theorem setParams_then_drawFrame_uploads_witness :
    readyEngine.isInit = true ∧ readyEngine.fenceSignaled = true ∧
    sampleDrawEnv.acquireResult = .VK_SUCCESS ∧
    ∃ s1 u,
      Java_com_df_depthflow_1mobile_MainActivity_drawFrame sampleDrawEnv
        (Java_com_df_depthflow_1mobile_MainActivity_setParams F32.lit_0_1 F32.lit_neg_0_2
          F32.lit_1_5 F32.lit_0_08 readyEngine) = .returned s1 ∧
      s1.uboMem = some u ∧
      s1.calls = readyEngine.calls ++ frameCalls sampleDrawEnv.imageIndex u ∧
      u.offset.x = F32.lit_0_1 ∧ u.offset.y = F32.lit_neg_0_2 ∧ u.zoom = F32.lit_1_5 ∧
      u.height = F32.lit_0_08 ∧ u.untouchedByFrame = readyEngine.ubo.untouchedByFrame :=
  ⟨by decide, by decide, rfl,
    setParams_then_drawFrame_uploads F32.lit_0_1 F32.lit_neg_0_2 F32.lit_1_5 F32.lit_0_08
      sampleDrawEnv readyEngine (by decide) (Or.inl (by decide)) rfl⟩

/-! ### Initialisation leaves the parameter buffer and `isInit` to the entry point -/

theorem log_keeps (c : VkCall) (s : Engine) :
    (Engine.log s c).ubo = s.ubo ∧ (Engine.log s c).isInit = s.isInit ∧
    (Engine.log s c).assetMgr = s.assetMgr :=
  ⟨rfl, rfl, rfl⟩

theorem logAll_keeps (cs : List VkCall) (s : Engine) :
    (Engine.logAll s cs).ubo = s.ubo ∧ (Engine.logAll s cs).isInit = s.isInit ∧
    (Engine.logAll s cs).assetMgr = s.assetMgr :=
  ⟨rfl, rfl, rfl⟩

theorem vkQueueSubmit_keeps (f : Bool) (s : Engine) :
    (vkQueueSubmit f s).ubo = s.ubo ∧ (vkQueueSubmit f s).isInit = s.isInit ∧
    (vkQueueSubmit f s).assetMgr = s.assetMgr :=
  ⟨rfl, rfl, rfl⟩

theorem vkQueueWaitIdle_keeps  (s : Engine) :
    (vkQueueWaitIdle s).ubo = s.ubo ∧ (vkQueueWaitIdle s).isInit = s.isInit ∧
    (vkQueueWaitIdle s).assetMgr = s.assetMgr :=
  ⟨rfl, rfl, rfl⟩

theorem vkCreateFence_keeps (f : Bool) (s : Engine) :
    (vkCreateFence f s).ubo = s.ubo ∧ (vkCreateFence f s).isInit = s.isInit ∧
    (vkCreateFence f s).assetMgr = s.assetMgr :=
  ⟨rfl, rfl, rfl⟩

theorem createBuf_keeps (drv : Driver) (size usage props : Nat) (s : Engine) :
    (createBuf drv size usage props s).2.ubo = s.ubo ∧
    (createBuf drv size usage props s).2.isInit = s.isInit ∧
    (createBuf drv size usage props s).2.assetMgr = s.assetMgr :=
  ⟨rfl, rfl, rfl⟩

theorem oneTimeCmd_keeps (func : List VkCmd) (s : Engine) :
    (oneTimeCmd func s).ubo = s.ubo ∧ (oneTimeCmd func s).isInit = s.isInit ∧
    (oneTimeCmd func s).assetMgr = s.assetMgr := by
  simp only [oneTimeCmd, log_keeps, logAll_keeps, vkQueueSubmit_keeps, vkQueueWaitIdle_keeps,
    and_self]

theorem transLayout_keeps (img : VkImageObj) (oldL newL : VkImageLayout) (s : Engine) :
    (transLayout img oldL newL s).2.ubo = s.ubo ∧
    (transLayout img oldL newL s).2.isInit = s.isInit ∧
    (transLayout img oldL newL s).2.assetMgr = s.assetMgr :=
  oneTimeCmd_keeps _ s

theorem createFallback_keeps (drv : Driver) (t : Tex) (r g b : Nat) (s : Engine) :
    (createFallback drv t r g b s).2.ubo = s.ubo ∧
    (createFallback drv t r g b s).2.isInit = s.isInit ∧
    (createFallback drv t r g b s).2.assetMgr = s.assetMgr := by
  simp only [createFallback, log_keeps, logAll_keeps, transLayout_keeps, oneTimeCmd_keeps,
    createBuf_keeps, and_self]

theorem loadTex_keeps (env : InitEnv) (name : String) (t : Tex) (s : Engine) :
    (loadTex env name t s).2.ubo = s.ubo ∧ (loadTex env name t s).2.isInit = s.isInit ∧
    (loadTex env name t s).2.assetMgr = s.assetMgr := by
  unfold loadTex
  split
  · exact createFallback_keeps _ _ _ _ _ _
  · split
    · exact createFallback_keeps _ _ _ _ _ _
    · split
      · exact createFallback_keeps _ _ _ _ _ _
      · by_cases hname : name = "image.png"
        · simp only [hname, if_true, log_keeps, logAll_keeps, transLayout_keeps,
            oneTimeCmd_keeps, createBuf_keeps, and_self]
        · simp only [hname, if_false, log_keeps, logAll_keeps, transLayout_keeps,
            oneTimeCmd_keeps, createBuf_keeps, and_self]

theorem loadTexInto_keeps (env : InitEnv) (name : String) (i : Nat) (s : Engine) :
    (loadTexInto env name i s).ubo = s.ubo ∧ (loadTexInto env name i s).isInit = s.isInit ∧
    (loadTexInto env name i s).assetMgr = s.assetMgr :=
  loadTex_keeps env name _ s

theorem initVK_keeps (env : InitEnv) (s : Engine) :
    (initVK env s).2.ubo = s.ubo ∧ (initVK env s).2.isInit = s.isInit ∧
    (initVK env s).2.assetMgr = s.assetMgr := by
  unfold initVK
  simp only
  split
  · simp only [log_keeps, logAll_keeps, and_self]
  · simp only [log_keeps, logAll_keeps, loadTexInto_keeps, createBuf_keeps,
      vkCreateFence_keeps, and_self]

theorem initVK_fst (env : InitEnv) (s : Engine) :
    (initVK env s).1 = !((readSpv s.assetMgr "shaders/quad.vert.spv").isEmpty ||
      (readSpv s.assetMgr "shaders/depthflow.frag.spv").isEmpty) := by
  unfold initVK
  simp only [log_keeps, logAll_keeps]
  split <;> rename_i h
  · simp only [h, Bool.not_true]
  · simp only [h, Bool.not_false]

theorem readSpv_unavailable (am : Option AAssetManager) (name : String)
    (h : shaderUnavailable am name) : readSpv am name = [] := by
  unfold readSpv
  unfold shaderUnavailable at h
  cases am with
  | none => rfl
  | some mgr =>
    rcases h with h | h
    · simp only [h]
    · simp only [h]

/-! ### The entry point `initVulkan` -/

theorem initVulkan_uninit (env : InitEnv) (s : Engine) (hinit : s.isInit = false) :
    Java_com_df_depthflow_1mobile_MainActivity_initVulkan env s =
      if (initVK env { s with assetMgr := env.am }).1 then
        (true, { (initVK env { s with assetMgr := env.am }).2 with
          isInit := true
          ubo := { (initVK env { s with assetMgr := env.am }).2.ubo with
            height := F32.lit_0_05, steady := F32.lit_0_5, zoom := F32.lit_1_0,
            quality := F32.lit_0_5, inpaint := F32.lit_0_01 } })
      else (false, (initVK env { s with assetMgr := env.am }).2) := by
  simp only [Java_com_df_depthflow_1mobile_MainActivity_initVulkan, hinit, Bool.false_eq_true,
    if_false]

theorem initVulkan_success_isInit (env : InitEnv) (s : Engine)
    (hok : (Java_com_df_depthflow_1mobile_MainActivity_initVulkan env s).1 = true) :
    (Java_com_df_depthflow_1mobile_MainActivity_initVulkan env s).2.isInit = true := by
  cases hinit : s.isInit with
  | true =>
    simp only [Java_com_df_depthflow_1mobile_MainActivity_initVulkan, hinit, if_true]
  | false =>
    rw [initVulkan_uninit env s hinit] at hok ⊢
    split at hok
    · rename_i h
      simp only [h, if_true]
    · cases hok

theorem initVulkan_failure_keeps (env : InitEnv) (s : Engine)
    (hfail : (Java_com_df_depthflow_1mobile_MainActivity_initVulkan env s).1 = false) :
    (Java_com_df_depthflow_1mobile_MainActivity_initVulkan env s).2.isInit = false ∧
    (Java_com_df_depthflow_1mobile_MainActivity_initVulkan env s).2.ubo = s.ubo := by
  cases hinit : s.isInit with
  | true =>
    simp [Java_com_df_depthflow_1mobile_MainActivity_initVulkan, hinit] at hfail
  | false =>
    rw [initVulkan_uninit env s hinit] at hfail ⊢
    split at hfail
    · cases hfail
    · rename_i h
      simp only [h, Bool.false_eq_true, if_false]
      have hk := initVK_keeps env { s with assetMgr := env.am }
      exact ⟨hk.2.1.trans hinit, hk.1⟩

/-- C6: on an engine that is not initialised, if either shader binary cannot be obtained
from the asset provider (asset manager absent, asset not found, or zero-length content),
`initVulkan` returns failure, `isInit` stays false and the parameter buffer is unchanged. -/
theorem initVulkan_fails_without_shader (env : InitEnv) (s : Engine)
    (hinit : s.isInit = false)
    (hmiss : shaderUnavailable env.am "shaders/quad.vert.spv" ∨
      shaderUnavailable env.am "shaders/depthflow.frag.spv") :
    (Java_com_df_depthflow_1mobile_MainActivity_initVulkan env s).1 = false ∧
    (Java_com_df_depthflow_1mobile_MainActivity_initVulkan env s).2.isInit = false ∧
    (Java_com_df_depthflow_1mobile_MainActivity_initVulkan env s).2.ubo = s.ubo := by
  have hvk : (initVK env { s with assetMgr := env.am }).1 = false := by
    rw [initVK_fst]
    rcases hmiss with h | h
    · rw [readSpv_unavailable env.am _ h]
      rfl
    · rw [readSpv_unavailable env.am _ h]
      simp
  have hfail : (Java_com_df_depthflow_1mobile_MainActivity_initVulkan env s).1 = false := by
    rw [initVulkan_uninit env s hinit, hvk]
    rfl
  exact ⟨hfail, initVulkan_failure_keeps env s hfail⟩

/-- Witness for C6: the fragment shader is not among the assets, at program start. -/
theorem initVulkan_fails_without_shader_witness :
    Engine.initial.isInit = false ∧
    shaderUnavailable sampleInitEnvNoShader.am "shaders/depthflow.frag.spv" ∧
    (Java_com_df_depthflow_1mobile_MainActivity_initVulkan sampleInitEnvNoShader
      Engine.initial).1 = false ∧
    (Java_com_df_depthflow_1mobile_MainActivity_initVulkan sampleInitEnvNoShader
      Engine.initial).2.isInit = false ∧
    (Java_com_df_depthflow_1mobile_MainActivity_initVulkan sampleInitEnvNoShader
      Engine.initial).2.ubo = Engine.initial.ubo :=
  ⟨rfl, Or.inl (by decide),
    initVulkan_fails_without_shader sampleInitEnvNoShader Engine.initial rfl
      (Or.inr (Or.inl (by decide)))⟩

/-- C7: on every engine that is already initialised, `initVulkan` returns success and
changes nothing: the state after the call, call log and parameter buffer included, is the
state before it.  Hence a second `initVulkan` after a successful one is a no-op. -/
theorem initVulkan_idempotent (env env2 : InitEnv) (s : Engine) :
    (s.isInit = true →
      Java_com_df_depthflow_1mobile_MainActivity_initVulkan env s = (true, s)) ∧
    ((Java_com_df_depthflow_1mobile_MainActivity_initVulkan env s).1 = true →
      Java_com_df_depthflow_1mobile_MainActivity_initVulkan env2
          (Java_com_df_depthflow_1mobile_MainActivity_initVulkan env s).2 =
        (true, (Java_com_df_depthflow_1mobile_MainActivity_initVulkan env s).2)) := by
  have key : ∀ (e : InitEnv) (t : Engine), t.isInit = true →
      Java_com_df_depthflow_1mobile_MainActivity_initVulkan e t = (true, t) := by
    intro e t ht
    simp only [Java_com_df_depthflow_1mobile_MainActivity_initVulkan, ht, if_true]
  exact ⟨key env s, fun hok => key env2 _ (initVulkan_success_isInit env s hok)⟩

/-- Witness for C7: a second `initVulkan`, even with a shader missing, on the engine a
first `initVulkan` initialised. -/
theorem initVulkan_idempotent_witness :
    readyEngine.isInit = true ∧
    (Java_com_df_depthflow_1mobile_MainActivity_initVulkan sampleInitEnv
      Engine.initial).1 = true ∧
    Java_com_df_depthflow_1mobile_MainActivity_initVulkan sampleInitEnvNoShader readyEngine =
      (true, readyEngine) ∧
    Java_com_df_depthflow_1mobile_MainActivity_initVulkan sampleInitEnvNoShader
        (Java_com_df_depthflow_1mobile_MainActivity_initVulkan sampleInitEnv
          Engine.initial).2 =
      (true, (Java_com_df_depthflow_1mobile_MainActivity_initVulkan sampleInitEnv
        Engine.initial).2) :=
  ⟨by decide, by decide,
    (initVulkan_idempotent sampleInitEnvNoShader sampleInitEnvNoShader readyEngine).1
      (by decide),
    (initVulkan_idempotent sampleInitEnv sampleInitEnvNoShader Engine.initial).2 (by decide)⟩

/-! ### Every way a `drawFrame` call can go -/

theorem drawFrame_uninit (env : DrawEnv) (s : Engine) (hinit : s.isInit = false) :
    Java_com_df_depthflow_1mobile_MainActivity_drawFrame env s = .returned s := by
  simp [Java_com_df_depthflow_1mobile_MainActivity_drawFrame, hinit]

theorem drawFrame_acquire_failed_any (env : DrawEnv) (s : Engine)
    (hinit : s.isInit = true) (hfence : s.fenceSignaled = true ∨ s.fencePending = true)
    (hacq : env.acquireResult ≠ .VK_SUCCESS) :
    ∃ s1, Java_com_df_depthflow_1mobile_MainActivity_drawFrame env s = .returned s1 ∧
      s1.isInit = true ∧ s1.ubo = s.ubo ∧
      s1.calls = s.calls ++ [.vkWaitForFences, .vkResetFences,
        .vkAcquireNextImageKHR env.acquireResult env.imageIndex] := by
  cases hs : s.fenceSignaled with
  | true =>
    exact ⟨_, drawFrame_acquire_failed env s hinit hs hacq, hinit, rfl, rfl⟩
  | false =>
    have hp : s.fencePending = true := by
      rcases hfence with h | h
      · rw [hs] at h; cases h
      · exact h
    refine ⟨{ s with
      fenceSignaled := false
      fencePending := false
      calls := s.calls ++ [.vkWaitForFences, .vkResetFences,
        .vkAcquireNextImageKHR env.acquireResult env.imageIndex] }, ?_, hinit, rfl, rfl⟩
    simp [Java_com_df_depthflow_1mobile_MainActivity_drawFrame, vkWaitForFences,
      vkResetFences, Engine.log, hinit, hs, hp, hacq]

theorem drawFrame_cases (env : DrawEnv) (s : Engine) :
    ∃ ops, (Java_com_df_depthflow_1mobile_MainActivity_drawFrame env s).state.calls =
        s.calls ++ ops ∧
      (Java_com_df_depthflow_1mobile_MainActivity_drawFrame env s).state.isInit = s.isInit ∧
      (ops = [] ∨ ops = [.vkWaitForFences] ∨
        ops = [.vkWaitForFences, .vkResetFences,
          .vkAcquireNextImageKHR env.acquireResult env.imageIndex] ∨
        ∃ u, ops = frameCalls env.imageIndex u) := by
  cases hinit : s.isInit with
  | false =>
    refine ⟨[], ?_, ?_, Or.inl rfl⟩
    · rw [drawFrame_uninit env s hinit]; simp [Outcome.state]
    · rw [drawFrame_uninit env s hinit]; exact hinit
  | true =>
    by_cases hfence : s.fenceSignaled = true ∨ s.fencePending = true
    · by_cases hacq : env.acquireResult = .VK_SUCCESS
      · obtain ⟨u, hrun, -⟩ := drawFrame_full_frame env s hinit hfence hacq
        refine ⟨frameCalls env.imageIndex u, ?_, ?_, Or.inr (Or.inr (Or.inr ⟨u, rfl⟩))⟩
        · rw [hrun]; rfl
        · rw [hrun]; exact hinit
      · obtain ⟨s1, hrun, h1, -, h3⟩ := drawFrame_acquire_failed_any env s hinit hfence hacq
        refine ⟨_, ?_, ?_, Or.inr (Or.inr (Or.inl rfl))⟩
        · rw [hrun]; exact h3
        · rw [hrun]; exact h1
    · have hs : s.fenceSignaled = false := by
        cases h : s.fenceSignaled with
        | false => rfl
        | true => exact absurd (Or.inl h) hfence
      have hp : s.fencePending = false := by
        cases h : s.fencePending with
        | false => rfl
        | true => exact absurd (Or.inr h) hfence
      refine ⟨[.vkWaitForFences], ?_, ?_, Or.inr (Or.inl rfl)⟩
      · rw [drawFrame_blocks env s hinit hs hp]; rfl
      · rw [drawFrame_blocks env s hinit hs hp]; exact hinit

/-! ### Outstanding submissions along the call log -/

theorem outstanding_cons (n : Nat) (c : VkCall) (cs : List VkCall) :
    outstanding n (c :: cs) = outstanding (outstanding n [c]) cs := by
  cases c <;> rfl

theorem outstanding_append (n : Nat) (a b : List VkCall) :
    outstanding n (a ++ b) = outstanding (outstanding n a) b := by
  induction a generalizing n with
  | nil => rfl
  | cons c cs ih =>
    rw [List.cons_append, outstanding_cons, ih, ← outstanding_cons]

theorem le_peakOutstanding (n : Nat) (cs : List VkCall) : n ≤ peakOutstanding n cs := by
  cases cs with
  | nil => exact le_refl _
  | cons c cs => exact le_max_left _ _

theorem outstanding_take_le_peak (n k : Nat) (cs : List VkCall) :
    outstanding n (cs.take k) ≤ peakOutstanding n cs := by
  induction cs generalizing n k with
  | nil => simp [outstanding, peakOutstanding]
  | cons c cs ih =>
    cases k with
    | zero => exact le_peakOutstanding n _
    | succ k =>
      rw [List.take_succ_cons, outstanding_cons]
      exact le_trans (ih _ k) (le_max_right _ _)

theorem peakOutstanding_append (n : Nat) (a b : List VkCall) :
    peakOutstanding n (a ++ b) =
      max (peakOutstanding n a) (peakOutstanding (outstanding n a) b) := by
  induction a generalizing n with
  | nil =>
    simp only [List.nil_append, peakOutstanding, outstanding]
    exact (max_eq_right (le_peakOutstanding n b)).symm
  | cons c cs ih =>
    rw [List.cons_append, peakOutstanding, peakOutstanding, ih, outstanding_cons n c cs,
      max_assoc]

theorem drawFrame_ops_idle (env : DrawEnv) (ops : List VkCall)
    (h : ops = [] ∨ ops = [.vkWaitForFences] ∨
      ops = [.vkWaitForFences, .vkResetFences,
        .vkAcquireNextImageKHR env.acquireResult env.imageIndex] ∨
      ∃ u, ops = frameCalls env.imageIndex u) :
    outstanding 0 ops = 0 ∧ peakOutstanding 0 ops ≤ 1 := by
  rcases h with h | h | h | ⟨u, h⟩ <;> subst h
  · exact ⟨rfl, by decide⟩
  · exact ⟨rfl, by decide⟩
  · exact ⟨rfl, by simp [peakOutstanding, outstanding]⟩
  · exact ⟨rfl, by simp [frameCalls, peakOutstanding, outstanding]⟩

theorem drawFrames_calls (envs : List DrawEnv) (s : Engine) :
    ∃ ops, (drawFrames envs s).state.calls = s.calls ++ ops ∧
      outstanding 0 ops = 0 ∧ peakOutstanding 0 ops ≤ 1 := by
  induction envs generalizing s with
  | nil => exact ⟨[], by simp [drawFrames, Outcome.state], rfl, by decide⟩
  | cons env envs ih =>
    obtain ⟨ops1, hcalls, -, hshape⟩ := drawFrame_cases env s
    obtain ⟨hidle1, hpeak1⟩ := drawFrame_ops_idle env ops1 hshape
    cases hrun : Java_com_df_depthflow_1mobile_MainActivity_drawFrame env s with
    | blocked s1 =>
      refine ⟨ops1, ?_, hidle1, hpeak1⟩
      rw [hrun] at hcalls
      simp only [drawFrames, hrun]
      exact hcalls
    | returned s1 =>
      rw [hrun] at hcalls
      obtain ⟨ops2, hcalls2, hidle2, hpeak2⟩ := ih s1
      refine ⟨ops1 ++ ops2, ?_, ?_, ?_⟩
      · simp only [drawFrames, hrun]
        rw [hcalls2]
        have : s1.calls = s.calls ++ ops1 := hcalls
        rw [this, List.append_assoc]
      · rw [outstanding_append, hidle1, hidle2]
      · rw [peakOutstanding_append, hidle1]
        exact max_le hpeak1 hpeak2

/-- C10: a `drawFrame` on an initialised engine whose fence wait returns and whose image
acquisition succeeds makes exactly these device calls, in this order: one fence wait
(first), the fence reset, one image acquire, one parameter-buffer upload (map, copy,
unmap), one recording of the command buffer holding a single draw of 3 vertices and 1
instance, one queue submit signaling the fence, one present, one queue-idle wait (last).
Hence for every run of `drawFrame` calls, from any state with no submission outstanding,
the number of submissions not yet followed by a queue-idle wait is zero when the run ends
(every prefix of a run is a run, so at every call boundary) and at most one at every point
of the call log in between. -/
theorem drawFrame_one_frame_outstanding :
    (∀ (env : DrawEnv) (s : Engine), s.isInit = true →
      (s.fenceSignaled = true ∨ s.fencePending = true) →
      env.acquireResult = .VK_SUCCESS →
      ∃ s1 u, Java_com_df_depthflow_1mobile_MainActivity_drawFrame env s = .returned s1 ∧
        s1.uboMem = some u ∧
        s1.cmdBuf = [.vkCmdBeginRenderPass env.imageIndex, .vkCmdBindPipeline,
          .vkCmdBindDescriptorSets, .vkCmdDraw 3 1 0 0, .vkCmdEndRenderPass] ∧
        s1.fenceSignaled = true ∧
        s1.calls = s.calls ++
          [.vkWaitForFences, .vkResetFences, .vkAcquireNextImageKHR .VK_SUCCESS env.imageIndex,
           .vkMapMemory, .memcpyUBO u, .vkUnmapMemory,
           .vkResetCommandBuffer, .vkBeginCommandBuffer,
           .cmd (.vkCmdBeginRenderPass env.imageIndex), .cmd .vkCmdBindPipeline,
           .cmd .vkCmdBindDescriptorSets, .cmd (.vkCmdDraw 3 1 0 0), .cmd .vkCmdEndRenderPass,
           .vkEndCommandBuffer,
           .vkQueueSubmit true, .vkQueuePresentKHR env.imageIndex, .vkQueueWaitIdle]) ∧
    (∀ (envs : List DrawEnv) (s : Engine), outstanding 0 s.calls = 0 →
      outstanding 0 (drawFrames envs s).state.calls = 0 ∧
      ∀ k, s.calls.length ≤ k →
        outstanding 0 ((drawFrames envs s).state.calls.take k) ≤ 1) := by
  constructor
  · intro env s hinit hfence hacq
    obtain ⟨u, hrun, -⟩ := drawFrame_full_frame env s hinit hfence hacq
    exact ⟨_, u, hrun, rfl, rfl, rfl, rfl⟩
  · intro envs s hidle
    obtain ⟨ops, hcalls, hops, hpeak⟩ := drawFrames_calls envs s
    rw [hcalls]
    constructor
    · rw [outstanding_append, hidle, hops]
    · intro k hk
      rw [List.take_append_eq_append_take, List.take_of_length_le hk, outstanding_append,
        hidle]
      exact le_trans (outstanding_take_le_peak 0 _ ops) hpeak

set_option maxRecDepth 100000 in
/-- Witness for C10: one full frame on the freshly initialised sample engine, and a run of
three calls (full frame, failed acquisition, blocked call) from it. -/
theorem drawFrame_one_frame_outstanding_witness :
    readyEngine.isInit = true ∧ readyEngine.fenceSignaled = true ∧
    sampleDrawEnv.acquireResult = .VK_SUCCESS ∧ outstanding 0 readyEngine.calls = 0 ∧
    (∃ s1 u, Java_com_df_depthflow_1mobile_MainActivity_drawFrame sampleDrawEnv readyEngine =
        .returned s1 ∧
      s1.uboMem = some u ∧
      s1.cmdBuf = [.vkCmdBeginRenderPass sampleDrawEnv.imageIndex, .vkCmdBindPipeline,
        .vkCmdBindDescriptorSets, .vkCmdDraw 3 1 0 0, .vkCmdEndRenderPass] ∧
      s1.fenceSignaled = true ∧
      s1.calls = readyEngine.calls ++
        [.vkWaitForFences, .vkResetFences,
         .vkAcquireNextImageKHR .VK_SUCCESS sampleDrawEnv.imageIndex,
         .vkMapMemory, .memcpyUBO u, .vkUnmapMemory,
         .vkResetCommandBuffer, .vkBeginCommandBuffer,
         .cmd (.vkCmdBeginRenderPass sampleDrawEnv.imageIndex), .cmd .vkCmdBindPipeline,
         .cmd .vkCmdBindDescriptorSets, .cmd (.vkCmdDraw 3 1 0 0), .cmd .vkCmdEndRenderPass,
         .vkEndCommandBuffer,
         .vkQueueSubmit true, .vkQueuePresentKHR sampleDrawEnv.imageIndex,
         .vkQueueWaitIdle]) ∧
    outstanding 0
      (drawFrames [sampleDrawEnv, failingDrawEnv, sampleDrawEnv] readyEngine).state.calls =
      0 :=
  ⟨by decide, by decide, rfl, by decide,
    drawFrame_one_frame_outstanding.1 sampleDrawEnv readyEngine (by decide)
      (Or.inl (by decide)) rfl,
    (drawFrame_one_frame_outstanding.2 [sampleDrawEnv, failingDrawEnv, sampleDrawEnv]
      readyEngine (by decide)).1⟩

/-! ### Fallback textures -/

theorem createFallback_fst (drv : Driver) (t : Tex) (r g b : Nat) (s : Engine) :
    (createFallback drv t r g b s).1 = fallbackTex drv r g b :=
  rfl

theorem createFallback_snd (drv : Driver) (t : Tex) (r g b : Nat) (s : Engine) :
    (createFallback drv t r g b s).2 =
      { s with
        fenceSignaled := s.fenceSignaled || s.fencePending
        fencePending := false
        calls := s.calls ++ fallbackCalls drv r g b } := by
  simp [createFallback, createBuf, transLayout, oneTimeCmd, vkQueueSubmit, vkQueueWaitIdle,
    Engine.log, Engine.logAll, fallbackCalls]

/-- C8: for every asset name, `loadTex` on an asset the provider reports absent yields the
fully constructed 1x1 texture whose single pixel is RGBA (255, 0, 0, 255), and on an asset
that is present but does not decode the fully constructed 1x1 texture whose single pixel is
RGBA (255, 255, 0, 255).  In both cases the device has been asked, in this order and
nothing else, to create the staging buffer and receive the four colour bytes, to create
the 1x1 image and bind device-local memory to it, to copy the staging buffer into the image
between the two layout transitions, and to create the view and the sampler: the 34 calls
of `fallbackCalls`, spelled out in the last part.  The two colours differ, and besides the
failure mode the texture and the calls depend on nothing but the driver (not on the name,
the provider, the bytes or the state). -/
theorem loadTex_fallback_by_failure_mode (env : InitEnv) (name : String) (t : Tex)
    (s : Engine) (mgr : AAssetManager) (hmgr : s.assetMgr = some mgr) :
    (AAssetManager_open mgr name = none →
      (loadTex env name t s).1 = fallbackTex env.driver 255 0 0 ∧
      (loadTex env name t s).1.fullyConstructed = true ∧
      (loadTex env name t s).1.img.map (fun i => (i.width, i.height, i.texels)) =
        some (1, 1, [255, 0, 0, 255]) ∧
      (loadTex env name t s).2.calls = s.calls ++ fallbackCalls env.driver 255 0 0 ∧
      (loadTex env name t s).2 =
        { s with
          fenceSignaled := s.fenceSignaled || s.fencePending
          fencePending := false
          calls := s.calls ++ fallbackCalls env.driver 255 0 0 }) ∧
    (∀ buf, AAssetManager_open mgr name = some buf → env.stbi_load_from_memory buf = none →
      (loadTex env name t s).1 = fallbackTex env.driver 255 255 0 ∧
      (loadTex env name t s).1.fullyConstructed = true ∧
      (loadTex env name t s).1.img.map (fun i => (i.width, i.height, i.texels)) =
        some (1, 1, [255, 255, 0, 255]) ∧
      (loadTex env name t s).2.calls = s.calls ++ fallbackCalls env.driver 255 255 0 ∧
      (loadTex env name t s).2 =
        { s with
          fenceSignaled := s.fenceSignaled || s.fencePending
          fencePending := false
          calls := s.calls ++ fallbackCalls env.driver 255 255 0 }) ∧
    (fallbackTex env.driver 255 0 0).color ≠ (fallbackTex env.driver 255 255 0).color ∧
    (∀ r g b : Nat, fallbackCalls env.driver r g b =
      [.vkCreateBuffer 4 VK_BUFFER_USAGE_TRANSFER_SRC_BIT,
       .vkAllocateMemory (findMemType env.driver.memProps
         (env.driver.bufferMemoryTypeBits 4 VK_BUFFER_USAGE_TRANSFER_SRC_BIT)
         (VK_MEMORY_PROPERTY_HOST_VISIBLE_BIT ||| VK_MEMORY_PROPERTY_HOST_COHERENT_BIT)),
       .vkBindBufferMemory,
       .vkMapMemory, .memcpyBytes [r, g, b, 255], .vkUnmapMemory,
       .vkCreateImage 1 1,
       .vkAllocateMemory (findMemType env.driver.memProps
         (env.driver.imageMemoryTypeBits 1 1) VK_MEMORY_PROPERTY_DEVICE_LOCAL_BIT),
       .vkBindImageMemory,
       .vkAllocateCommandBuffers, .vkBeginCommandBuffer,
       .cmd (.vkCmdPipelineBarrier .VK_IMAGE_LAYOUT_UNDEFINED
         .VK_IMAGE_LAYOUT_TRANSFER_DST_OPTIMAL),
       .vkEndCommandBuffer, .vkQueueSubmit false, .vkQueueWaitIdle, .vkFreeCommandBuffers,
       .vkAllocateCommandBuffers, .vkBeginCommandBuffer,
       .cmd (.vkCmdCopyBufferToImage 1 1),
       .vkEndCommandBuffer, .vkQueueSubmit false, .vkQueueWaitIdle, .vkFreeCommandBuffers,
       .vkAllocateCommandBuffers, .vkBeginCommandBuffer,
       .cmd (.vkCmdPipelineBarrier .VK_IMAGE_LAYOUT_TRANSFER_DST_OPTIMAL
         .VK_IMAGE_LAYOUT_SHADER_READ_ONLY_OPTIMAL),
       .vkEndCommandBuffer, .vkQueueSubmit false, .vkQueueWaitIdle, .vkFreeCommandBuffers,
       .vkDestroyBuffer, .vkFreeMemory,
       .vkCreateImageView, .vkCreateSampler .VK_FILTER_NEAREST]) := by
  refine ⟨?_, ?_, by simp [fallbackTex, Tex.color], fun _ _ _ => rfl⟩
  · intro habs
    have h : loadTex env name t s = createFallback env.driver t 255 0 0 s := by
      unfold loadTex
      simp only [hmgr, habs]
    rw [h, createFallback_fst, createFallback_snd]
    exact ⟨rfl, rfl, rfl, rfl, rfl⟩
  · intro buf hbuf hdec
    have h : loadTex env name t s = createFallback env.driver t 255 255 0 s := by
      unfold loadTex
      simp only [hmgr, hbuf, hdec]
    rw [h, createFallback_fst, createFallback_snd]
    exact ⟨rfl, rfl, rfl, rfl, rfl⟩

/-- Witness for C8: in the sample assets `depth.png` is absent and `depth_bg.png` is
present but does not decode. -/
theorem loadTex_fallback_by_failure_mode_witness :
    sampleLoadState.assetMgr = some sampleAssets ∧
    AAssetManager_open sampleAssets "depth.png" = none ∧
    (loadTex sampleInitEnv "depth.png" Tex.null sampleLoadState).1 =
      fallbackTex sampleInitEnv.driver 255 0 0 ∧
    (loadTex sampleInitEnv "depth.png" Tex.null sampleLoadState).2.calls =
      sampleLoadState.calls ++ fallbackCalls sampleInitEnv.driver 255 0 0 ∧
    AAssetManager_open sampleAssets "depth_bg.png" = some [0] ∧
    sampleInitEnv.stbi_load_from_memory [0] = none ∧
    (loadTex sampleInitEnv "depth_bg.png" Tex.null sampleLoadState).1 =
      fallbackTex sampleInitEnv.driver 255 255 0 ∧
    (loadTex sampleInitEnv "depth_bg.png" Tex.null sampleLoadState).2.calls =
      sampleLoadState.calls ++ fallbackCalls sampleInitEnv.driver 255 255 0 :=
  ⟨rfl, by decide,
    ((loadTex_fallback_by_failure_mode sampleInitEnv "depth.png" Tex.null sampleLoadState
      sampleAssets rfl).1 (by decide)).1,
    ((loadTex_fallback_by_failure_mode sampleInitEnv "depth.png" Tex.null sampleLoadState
      sampleAssets rfl).1 (by decide)).2.2.2.1,
    by decide, by decide,
    ((loadTex_fallback_by_failure_mode sampleInitEnv "depth_bg.png" Tex.null sampleLoadState
      sampleAssets rfl).2.1 [0] (by decide) (by decide)).1,
    ((loadTex_fallback_by_failure_mode sampleInitEnv "depth_bg.png" Tex.null sampleLoadState
      sampleAssets rfl).2.1 [0] (by decide) (by decide)).2.2.2.1⟩

/-- C9 (counterexample): `depth.png` and `image_bg.png` are two distinct slots, both absent
from the sample assets, and the fallback textures `loadTex` builds for them have the same
colour, RGBA (255, 0, 0, 255). -/
theorem loadTex_missing_color_not_keyed_to_slot :
    "depth.png" ∈ slotNames ∧ "image_bg.png" ∈ slotNames ∧ "depth.png" ≠ "image_bg.png" ∧
    AAssetManager_open sampleAssets "depth.png" = none ∧
    AAssetManager_open sampleAssets "image_bg.png" = none ∧
    (loadTex sampleInitEnv "depth.png" Tex.null sampleLoadState).1.color =
      some [255, 0, 0, 255] ∧
    (loadTex sampleInitEnv "image_bg.png" Tex.null sampleLoadState).1.color =
      some [255, 0, 0, 255] := by
  decide

/-- C9 (amended): when the provider reports an asset absent, the fallback colour is RGBA
(255, 0, 0, 255) whatever the asset name, so it is the same for all five slots; the colour
is keyed to the failure mode instead: (255, 0, 255, 255) when the asset manager is null,
(255, 0, 0, 255) when the asset is absent, (255, 255, 0, 255) when it does not decode. -/
theorem loadTex_missing_color_keyed_to_failure_mode (env : InitEnv) (n1 n2 : String)
    (t1 t2 : Tex) (s1 s2 : Engine) (mgr1 mgr2 : AAssetManager)
    (hmgr1 : s1.assetMgr = some mgr1) (hmgr2 : s2.assetMgr = some mgr2)
    (habs1 : AAssetManager_open mgr1 n1 = none) (habs2 : AAssetManager_open mgr2 n2 = none) :
    (loadTex env n1 t1 s1).1.color = some [255, 0, 0, 255] ∧
    (loadTex env n2 t2 s2).1.color = (loadTex env n1 t1 s1).1.color ∧
    (∀ (s : Engine) (t : Tex), s.assetMgr = none →
      (loadTex env n1 t s).1.color = some [255, 0, 255, 255]) ∧
    (∀ (s : Engine) (t : Tex) (mgr : AAssetManager) (buf : List Nat),
      s.assetMgr = some mgr → AAssetManager_open mgr n1 = some buf →
      env.stbi_load_from_memory buf = none →
      (loadTex env n1 t s).1.color = some [255, 255, 0, 255]) := by
  have key : ∀ (n : String) (t : Tex) (s : Engine) (mgr : AAssetManager),
      s.assetMgr = some mgr → AAssetManager_open mgr n = none →
      (loadTex env n t s).1.color = some [255, 0, 0, 255] := by
    intro n t s mgr hm ha
    unfold loadTex
    simp only [hm, ha]
    rw [createFallback_fst]
    rfl
  refine ⟨key n1 t1 s1 mgr1 hmgr1 habs1, ?_, ?_, ?_⟩
  · rw [key n1 t1 s1 mgr1 hmgr1 habs1, key n2 t2 s2 mgr2 hmgr2 habs2]
  · intro s t hm
    unfold loadTex
    simp only [hm]
    rw [createFallback_fst]
    rfl
  · intro s t mgr buf hm hb hd
    unfold loadTex
    simp only [hm, hb, hd]
    rw [createFallback_fst]
    rfl

/-- Witness for C9 (amended): `depth.png` and `subject_mask.png`, both absent from the
sample assets. -/
theorem loadTex_missing_color_keyed_to_failure_mode_witness :
    sampleLoadState.assetMgr = some sampleAssets ∧
    AAssetManager_open sampleAssets "depth.png" = none ∧
    AAssetManager_open sampleAssets "subject_mask.png" = none ∧
    (loadTex sampleInitEnv "depth.png" Tex.null sampleLoadState).1.color =
      some [255, 0, 0, 255] ∧
    (loadTex sampleInitEnv "subject_mask.png" Tex.null sampleLoadState).1.color =
      (loadTex sampleInitEnv "depth.png" Tex.null sampleLoadState).1.color :=
  ⟨rfl, by decide, by decide,
    (loadTex_missing_color_keyed_to_failure_mode sampleInitEnv "depth.png" "subject_mask.png"
      Tex.null Tex.null sampleLoadState sampleLoadState sampleAssets sampleAssets rfl rfl
      (by decide) (by decide)).1,
    (loadTex_missing_color_keyed_to_failure_mode sampleInitEnv "depth.png" "subject_mask.png"
      Tex.null Tex.null sampleLoadState sampleLoadState sampleAssets sampleAssets rfl rfl
      (by decide) (by decide)).2.1⟩

/-! ### Default parameters after initialisation -/

theorem run_keeps_zero_ubo (c : HostCall) (s s1 : Engine)
    (hno : c.isSetParams = false) (hinv : s.isInit = false → s.ubo = UBO.zero)
    (hrun : c.run s = .returned s1) : s1.isInit = false → s1.ubo = UBO.zero := by
  intro h1
  cases c with
  | setParams x y z h => cases hno
  | cleanup =>
    simp only [HostCall.run, Outcome.returned.injEq] at hrun
    subst hrun
    cases hinit : s.isInit with
    | false =>
      simp only [Java_com_df_depthflow_1mobile_MainActivity_cleanup, hinit,
        Bool.false_eq_true, if_false]
      exact hinv hinit
    | true =>
      simp only [Java_com_df_depthflow_1mobile_MainActivity_cleanup, hinit, if_true] at h1
      have : s.isInit = false := h1
      rw [hinit] at this
      cases this
  | drawFrame env =>
    simp only [HostCall.run] at hrun
    obtain ⟨_, -, hisInit, -⟩ := drawFrame_cases env s
    rw [hrun] at hisInit
    have hinit : s.isInit = false := by
      rw [← hisInit]; exact h1
    rw [drawFrame_uninit env s hinit] at hrun
    simp only [Outcome.returned.injEq] at hrun
    subst hrun
    exact hinv hinit
  | initVulkan env =>
    simp only [HostCall.run, Outcome.returned.injEq] at hrun
    subst hrun
    cases hres : (Java_com_df_depthflow_1mobile_MainActivity_initVulkan env s).1 with
    | true =>
      rw [initVulkan_success_isInit env s hres] at h1
      cases h1
    | false =>
      have hinit : s.isInit = false := by
        cases hi : s.isInit with
        | false => rfl
        | true =>
          simp [Java_com_df_depthflow_1mobile_MainActivity_initVulkan, hi] at hres
      rw [(initVulkan_failure_keeps env s hres).2]
      exact hinv hinit

theorem runCalls_keeps_zero_ubo (calls : List HostCall) (s s1 : Engine)
    (hno : ∀ c ∈ calls, c.isSetParams = false) (hinv : s.isInit = false → s.ubo = UBO.zero)
    (hrun : runCalls calls s = .returned s1) : s1.isInit = false → s1.ubo = UBO.zero := by
  induction calls generalizing s with
  | nil =>
    simp only [runCalls, Outcome.returned.injEq] at hrun
    subst hrun
    exact hinv
  | cons c cs ih =>
    cases hc : c.run s with
    | blocked s2 => simp [runCalls, hc] at hrun
    | returned s2 =>
      simp only [runCalls, hc] at hrun
      exact ih s2 (fun d hd => hno d (List.mem_cons_of_mem _ hd))
        (run_keeps_zero_ubo c s s2 (hno c (List.mem_cons_self _ _)) hinv hc) hrun

/-- C5 (counterexample): `setParams(0.1, -0.2, 1.5, 0.08)` before initialisation, then a
successful `initVulkan`: `offset.x` and `offset.y` are the values set before, not zero. -/
theorem initVulkan_keeps_offset_set_before :
    preInitParamsEngine.isInit = false ∧
    (Java_com_df_depthflow_1mobile_MainActivity_initVulkan sampleInitEnv
      preInitParamsEngine).1 = true ∧
    (Java_com_df_depthflow_1mobile_MainActivity_initVulkan sampleInitEnv
      preInitParamsEngine).2.ubo.offset = { x := F32.lit_0_1, y := F32.lit_neg_0_2 } ∧
    F32.lit_0_1 ≠ F32.zero ∧ F32.lit_neg_0_2 ≠ F32.zero := by
  decide

/-- C5 (amended): after an `initVulkan` that is called on an engine not yet initialised and
returns success, the parameter buffer has `height = 0.05`, `steady = 0.5`, `zoom = 1.0`,
`quality = 0.5`, `inpaint = 0.01`, and each of its other 27 floats (`offset.x` and
`offset.y` among them) has the value it had before the call; these are all zero when the
state before the call was reached from program start by calls of `initVulkan`, `drawFrame`
and `cleanup` only, that is, without a `setParams` call. -/
theorem initVulkan_success_sets_defaults (env : InitEnv) (s : Engine)
    (hinit : s.isInit = false)
    (hok : (Java_com_df_depthflow_1mobile_MainActivity_initVulkan env s).1 = true) :
    (Java_com_df_depthflow_1mobile_MainActivity_initVulkan env s).2.ubo.height =
      F32.lit_0_05 ∧
    (Java_com_df_depthflow_1mobile_MainActivity_initVulkan env s).2.ubo.steady =
      F32.lit_0_5 ∧
    (Java_com_df_depthflow_1mobile_MainActivity_initVulkan env s).2.ubo.zoom = F32.lit_1_0 ∧
    (Java_com_df_depthflow_1mobile_MainActivity_initVulkan env s).2.ubo.quality =
      F32.lit_0_5 ∧
    (Java_com_df_depthflow_1mobile_MainActivity_initVulkan env s).2.ubo.inpaint =
      F32.lit_0_01 ∧
    (Java_com_df_depthflow_1mobile_MainActivity_initVulkan env s).2.ubo.withoutDefaults =
      s.ubo.withoutDefaults ∧
    (∀ calls : List HostCall, (∀ c ∈ calls, c.isSetParams = false) →
      runCalls calls Engine.initial = .returned s →
      (Java_com_df_depthflow_1mobile_MainActivity_initVulkan env s).2.ubo.withoutDefaults =
        List.replicate 27 F32.zero) := by
  have hvk : (initVK env { s with assetMgr := env.am }).1 = true := by
    rw [initVulkan_uninit env s hinit] at hok
    split at hok
    · assumption
    · cases hok
  have hubo : (initVK env { s with assetMgr := env.am }).2.ubo = s.ubo :=
    (initVK_keeps env { s with assetMgr := env.am }).1
  have hrest :
      (Java_com_df_depthflow_1mobile_MainActivity_initVulkan env s).2.ubo.withoutDefaults =
        s.ubo.withoutDefaults := by
    rw [initVulkan_uninit env s hinit]
    simp only [hvk, if_true, UBO.withoutDefaults, hubo]
  refine ⟨?_, ?_, ?_, ?_, ?_, hrest, ?_⟩
  · rw [initVulkan_uninit env s hinit]; simp only [hvk, if_true]
  · rw [initVulkan_uninit env s hinit]; simp only [hvk, if_true]
  · rw [initVulkan_uninit env s hinit]; simp only [hvk, if_true]
  · rw [initVulkan_uninit env s hinit]; simp only [hvk, if_true]
  · rw [initVulkan_uninit env s hinit]; simp only [hvk, if_true]
  · intro calls hno hrun
    rw [hrest, runCalls_keeps_zero_ubo calls Engine.initial s hno (fun _ => rfl) hrun hinit]
    rfl

/-- Witness for C5 (amended): initialisation in the sample environment, after a `drawFrame`
and a `cleanup` call made at program start. -/
theorem initVulkan_success_sets_defaults_witness :
    Engine.initial.isInit = false ∧
    (Java_com_df_depthflow_1mobile_MainActivity_initVulkan sampleInitEnv
      Engine.initial).1 = true ∧
    runCalls [.drawFrame sampleDrawEnv, .cleanup] Engine.initial = .returned Engine.initial ∧
    (Java_com_df_depthflow_1mobile_MainActivity_initVulkan sampleInitEnv
      Engine.initial).2.ubo.height = F32.lit_0_05 ∧
    (Java_com_df_depthflow_1mobile_MainActivity_initVulkan sampleInitEnv
      Engine.initial).2.ubo.withoutDefaults = List.replicate 27 F32.zero ∧
    (Java_com_df_depthflow_1mobile_MainActivity_initVulkan sampleInitEnv
      Engine.initial).2.ubo.floats =
      [F32.lit_0_05, F32.lit_0_5, F32.zero, F32.lit_1_0] ++ List.replicate 16 F32.zero ++
        [F32.lit_0_01, F32.lit_0_5] ++ List.replicate 10 F32.zero :=
  ⟨rfl, by decide, by decide,
    (initVulkan_success_sets_defaults sampleInitEnv Engine.initial rfl (by decide)).1,
    (initVulkan_success_sets_defaults sampleInitEnv Engine.initial rfl (by decide)).2.2.2.2.2.2
      [.drawFrame sampleDrawEnv, .cleanup] (by decide) (by decide),
    by decide⟩

/-! ### The layout of the parameter buffer -/

theorem UBO.memoryImage_eq (u : UBO) :
    u.memoryImage = List.zip ((List.range 32).map fun k => 4 * k) u.floats := by
  rfl

/-- C11: under the C++ layout rule with 4-byte, 4-aligned floats, `struct UBO` is 32
four-byte float slots in declaration order, slot `k` at byte `4 * k`, with no padding (its
size, 128 bytes, is the sum of the sizes of its members and a multiple of 16); every
scalar member starts at a multiple of 4 and every `vec2` member at a multiple of 8
(`offset` at 32, `center` at 40, `origin` at 48, `screenSize` at 64, `imgSize` at 72, and
`time` at 56, `aspect` at 60, `inpaint` at 80, `gray` at 112), and the std140 rules place
the same members at the same offsets. -/
theorem UBO_layout_contiguous_std140 :
    UBO.layout =
      [("height", .float, 0), ("steady", .float, 4), ("focus", .float, 8),
       ("zoom", .float, 12), ("isometric", .float, 16), ("dolly", .float, 20),
       ("invert", .float, 24), ("mirror", .float, 28),
       ("offset", .vec2, 32), ("center", .vec2, 40),
       ("origin", .vec2, 48), ("time", .float, 56), ("aspect", .float, 60),
       ("screenSize", .vec2, 64), ("imgSize", .vec2, 72),
       ("inpaint", .float, 80), ("quality", .float, 84), ("vig", .float, 88),
       ("sat", .float, 92), ("con", .float, 96), ("bri", .float, 100),
       ("gam", .float, 104), ("sep", .float, 108),
       ("gray", .float, 112), ("pad1", .float, 116), ("pad2", .float, 120),
       ("pad3", .float, 124)] ∧
    (∀ u : UBO, u.floats.length = 32 ∧
      u.memoryImage = List.zip ((List.range 32).map fun k => 4 * k) u.floats) ∧
    sizeof_float = 4 ∧ UBO.sizeof = 128 ∧ sizeof_UBO = UBO.sizeof ∧
    (UBO.members.map fun m => m.2.sizeof).sum = UBO.sizeof ∧ UBO.sizeof % 16 = 0 ∧
    UBO.layout.all (fun m =>
      match m.2.1 with
      | .float => m.2.2 % 4 == 0
      | .vec2 => m.2.2 % 8 == 0) = true ∧
    (UBO.layout.filter fun m => m.2.1 == .vec2).map (fun m => (m.1, m.2.2)) =
      [("offset", 32), ("center", 40), ("origin", 48), ("screenSize", 64), ("imgSize", 72)] ∧
    UBO.std140Layout = UBO.layout := by
  refine ⟨by decide, fun u => ⟨rfl, UBO.memoryImage_eq u⟩, rfl, by decide, by decide,
    by decide, by decide, by decide, by decide, by decide⟩

end DepthFlow
